import Mathlib

/-!
# PLGLShaders: shader compilation, activation and tear-down

A shallow embedding of `src/PLGLShaders.c` of DxPortLib.  The GL driver is an
external party: every GL entry point the file calls is recorded in a call
trace, and the values the driver hands back (error codes, object ids, compile
status, attribute and uniform locations) are given by a `GLDriver`, a family
of functions of the call history so far.  The handle table is the only other
state the file touches, next to its own static table of stock handles.
-/

namespace PLGLShaders

/-! ## GL types and constants -/

/-- GLuint values are naturals below 2^32. -/
abbrev GLuint := Nat
/-- GLint values are integers in the signed 32 bit range. -/
abbrev GLint := Int
/-- GLenum values are naturals. -/
abbrev GLenum := Nat

/-! The constants below carry the values that the OpenGL headers give them. -/

/-- The error code of "no error". -/
def GL_NO_ERROR : GLenum := 0
/-- The GLboolean false. -/
def GL_FALSE : Nat := 0
/-- The GLboolean true, as glGetShaderiv reports it. -/
def GL_TRUE : GLint := 1
/-- The component type of unsigned bytes. -/
def GL_UNSIGNED_BYTE : GLenum := 0x1401
/-- The component type of floats. -/
def GL_FLOAT : GLenum := 0x1406
/-- The shader type of fragment shaders. -/
def GL_FRAGMENT_SHADER : GLenum := 0x8B30
/-- The shader type of vertex shaders. -/
def GL_VERTEX_SHADER : GLenum := 0x8B31
/-- The shader parameter that holds the compile status. -/
def GL_COMPILE_STATUS : GLenum := 0x8B81

/-- Conversion of a GLint to GLuint, as done by the C assignment
`info->glVertexAttribID = glGetAttribLocation(..)`. -/
def toGLuint (x : Int) : Nat := (x % 2 ^ 32).toNat

/-- Conversion of a GLuint to GLint, as done by `GLint attribID = info->glTexcoordAttribID[..]`
and by passing a GLuint slot as the GLint location of glUniform1i. -/
def toGLint (x : Nat) : Int :=
  if x % 2 ^ 32 < 2 ^ 31 then ((x % 2 ^ 32 : Nat) : Int) else ((x % 2 ^ 32 : Nat) : Int) - 2 ^ 32

/-- The entry points of the GL function table `PL_GL`, with their arguments.
`glLinkProgram` is part of the GL API and of the alphabet of traces; the other
constructors are the calls that occur in `PLGLShaders.c`. -/
inductive GLCall where
  | glGetError
  | glCreateProgram
  | glCreateShader (shaderType : GLenum)
  | glShaderSource (shader : GLuint) (source : String)
  | glCompileShader (shader : GLuint)
  | glGetShaderiv (shader : GLuint) (pname : GLenum)
  | glAttachShader (program : GLuint) (shader : GLuint)
  | glLinkProgram (program : GLuint)
  | glGetAttribLocation (program : GLuint) (name : String)
  | glGetUniformLocation (program : GLuint) (name : String)
  | glDeleteShader (shader : GLuint)
  | glDeleteProgram (program : GLuint)
  | glUseProgram (program : GLuint)
  | glUniform1i (location : GLint) (v0 : GLint)
  | glEnableVertexAttribArray (index : GLuint)
  | glDisableVertexAttribArray (index : GLuint)
  | glVertexAttribPointer (index : GLuint) (size : GLint) (type : GLenum)
      (normalized : Nat) (stride : Int) (pointer : Int)
  deriving DecidableEq, Repr

/-- The GL driver: what each value-returning entry point answers, as a function
of the calls issued before it. -/
structure GLDriver where
  getError : List GLCall → GLenum
  createProgram : List GLCall → GLuint
  createShader : List GLCall → GLenum → GLuint
  getShaderiv : List GLCall → GLuint → GLenum → GLint
  getAttribLocation : List GLCall → GLuint → String → GLint
  getUniformLocation : List GLCall → GLuint → String → GLint

/-! ## Data model of the file -/

/-- The enum PLGLShaderType without its end marker. -/
inductive PLGLShaderType where
  | PLGL_SHADER_BASIC_NOTEX
  | PLGL_SHADER_BASIC_TEX1
  deriving DecidableEq, Repr

/-- The struct PLGLShaderDefinition; a NULL source pointer is `none`. -/
structure PLGLShaderDefinition where
  vertexShader : Option String
  fragmentShader : Option String
  textureCount : Int
  texcoordCount : Int
  hasColor : Int
  deriving DecidableEq, Repr

/-- A C array `GLuint x[4]`. -/
structure Slots4 where
  s0 : GLuint
  s1 : GLuint
  s2 : GLuint
  s3 : GLuint
  deriving DecidableEq, Repr

/-- Read of `x[i]`; `none` stands for an access outside the four slots. -/
def Slots4.get? (a : Slots4) (i : Nat) : Option GLuint :=
  match i with
  | 0 => some a.s0
  | 1 => some a.s1
  | 2 => some a.s2
  | 3 => some a.s3
  | _ => none

/-- The four indices of a C array `GLuint x[4]`. -/
inductive SlotIndex where
  | i0
  | i1
  | i2
  | i3
  deriving DecidableEq, Repr

/-- The number an index stands for. -/
def SlotIndex.toNat : SlotIndex → Nat
  | .i0 => 0
  | .i1 => 1
  | .i2 => 2
  | .i3 => 3

/-- The indices 0, 1, 2, 3 in increasing order. -/
def allSlots : List SlotIndex := [.i0, .i1, .i2, .i3]

/-- Read of `x[k]` for an index known to be one of the four slots. -/
def Slots4.get (a : Slots4) (k : SlotIndex) : GLuint :=
  match k with
  | .i0 => a.s0
  | .i1 => a.s1
  | .i2 => a.s2
  | .i3 => a.s3

/-- The struct PLGLShaderInfo. -/
structure PLGLShaderInfo where
  definition : PLGLShaderDefinition
  glVertexShaderID : GLuint
  glFragmentShaderID : GLuint
  glProgramID : GLuint
  glVertexAttribID : GLuint
  glTextureUniformID : Slots4
  glTexcoordAttribID : Slots4
  glColorAttribID : GLuint
  deriving DecidableEq, Repr

/-- The record after `memset(info, 0, sizeof(PLGLShaderInfo))`. -/
def zeroInfo : PLGLShaderInfo :=
  { definition := { vertexShader := none, fragmentShader := none,
                    textureCount := 0, texcoordCount := 0, hasColor := 0 },
    glVertexShaderID := 0, glFragmentShaderID := 0, glProgramID := 0,
    glVertexAttribID := 0,
    glTextureUniformID := ⟨0, 0, 0, 0⟩, glTexcoordAttribID := ⟨0, 0, 0, 0⟩,
    glColorAttribID := 0 }

/-- Modelled from the spec: the vertex element kinds of `PLInternal.h`, which is
not part of the sources at hand.  The constructors are the enumerators that the
switch statements of ApplyProgram and ClearProgram name, the four texcoord kinds
being consecutive (the code indexes with `e->vertexType - VERTEX_TEXCOORD0`);
`VERTEX_OTHER` stands for any further enumerator, which no case matches. -/
inductive VertexElementType where
  | VERTEX_POSITION
  | VERTEX_TEXCOORD0
  | VERTEX_TEXCOORD1
  | VERTEX_TEXCOORD2
  | VERTEX_TEXCOORD3
  | VERTEX_COLOR
  | VERTEX_OTHER
  deriving DecidableEq, Repr

/-- Modelled from the spec: the element sizes of `PLInternal.h`, named by
VertexElementSizeToGL. -/
inductive VertexElementSize where
  | VERTEXSIZE_UNSIGNED_BYTE
  | VERTEXSIZE_FLOAT
  deriving DecidableEq, Repr

/-- Modelled from the spec: the struct VertexElement of `PLInternal.h`, with the
four fields the file reads. -/
structure VertexElement where
  vertexType : VertexElementType
  size : Int
  vertexElementSize : VertexElementSize
  offset : Int
  deriving DecidableEq, Repr

/-- Modelled from the spec: the struct VertexDefinition of `PLInternal.h`.  The
array `elements` of `elementCount` entries is a list, `elementCount` its length. -/
structure VertexDefinition where
  elements : List VertexElement
  vertexByteSize : Int
  deriving DecidableEq, Repr

/-! ## The handle table -/

/-- The calls made into the handle module, recorded in the order issued. -/
inductive HandleCall where
  | acquireID
  | allocateData (handle : Int)
  | getData (handle : Int)
  | releaseID (handle : Int)
  deriving DecidableEq, Repr

/-- Modelled from the spec: the handle table is owned by a collaborating module
(PL_Handle_AcquireID, PL_Handle_AllocateData, PL_Handle_GetData,
PL_Handle_ReleaseID) that is not part of the sources at hand; it "stores opaque
per-shader records" under handles.  Live shader handles and their records are an
association list, fresh handles are non-negative and drawn from a counter. -/
structure HandleTable where
  entries : List (Int × PLGLShaderInfo)
  nextID : Nat
  log : List HandleCall
  deriving DecidableEq, Repr

/-- The state the file acts on: the GL calls issued so far, the handle table and
the static array `s_stockShaderIDs`. -/
structure World where
  glTrace : List GLCall
  handles : HandleTable
  s_stockShaderIDs : Int × Int
  deriving DecidableEq, Repr

/-- Modelled from the spec: PL_Handle_AcquireID(DXHANDLE_SHADER) hands out a fresh
handle. -/
def PL_Handle_AcquireID (w : World) : Int × World :=
  ((w.handles.nextID : Int),
   { w with handles := { w.handles with nextID := w.handles.nextID + 1,
                                        log := w.handles.log ++ [HandleCall.acquireID] } })

/-- Modelled from the spec: PL_Handle_AllocateData attaches a record to the handle.
The writes the caller makes through the returned pointer are modelled by passing
the record as it stands when the caller returns. -/
def PL_Handle_AllocateData (handle : Int) (info : PLGLShaderInfo) (w : World) : World :=
  { w with handles := { w.handles with entries := (handle, info) :: w.handles.entries,
                                       log := w.handles.log ++ [HandleCall.allocateData handle] } }

/-- Lookup of the record of a handle in the association list. -/
def lookupHandle (handle : Int) : List (Int × PLGLShaderInfo) → Option PLGLShaderInfo
  | [] => none
  | (h, info) :: rest => if h = handle then some info else lookupHandle handle rest

/-- Modelled from the spec: PL_Handle_GetData(handle, DXHANDLE_SHADER) returns the
record of a live shader handle, NULL (`none`) otherwise. -/
def PL_Handle_GetData (handle : Int) (w : World) : Option PLGLShaderInfo × World :=
  (lookupHandle handle w.handles.entries,
   { w with handles := { w.handles with log := w.handles.log ++ [HandleCall.getData handle] } })

/-- Modelled from the spec: PL_Handle_ReleaseID(handle, DXTRUE) releases the handle
and frees its record. -/
def PL_Handle_ReleaseID (handle : Int) (w : World) : World :=
  { w with handles := { w.handles with
      entries := w.handles.entries.filter (fun p => decide (p.1 ≠ handle)),
      log := w.handles.log ++ [HandleCall.releaseID handle] } }

/-! ## GL calls -/

/-- Issue a GL call that returns nothing. -/
def glCall (c : GLCall) (w : World) : World :=
  { w with glTrace := w.glTrace ++ [c] }

def glGetError (drv : GLDriver) (w : World) : GLenum × World :=
  (drv.getError w.glTrace, glCall GLCall.glGetError w)

def glCreateProgram (drv : GLDriver) (w : World) : GLuint × World :=
  (drv.createProgram w.glTrace, glCall GLCall.glCreateProgram w)

def glCreateShader (drv : GLDriver) (shaderType : GLenum) (w : World) : GLuint × World :=
  (drv.createShader w.glTrace shaderType, glCall (GLCall.glCreateShader shaderType) w)

def glGetShaderiv (drv : GLDriver) (shader : GLuint) (pname : GLenum) (w : World) :
    GLint × World :=
  (drv.getShaderiv w.glTrace shader pname, glCall (GLCall.glGetShaderiv shader pname) w)

def glGetAttribLocation (drv : GLDriver) (program : GLuint) (name : String) (w : World) :
    GLint × World :=
  (drv.getAttribLocation w.glTrace program name,
   glCall (GLCall.glGetAttribLocation program name) w)

def glGetUniformLocation (drv : GLDriver) (program : GLuint) (name : String) (w : World) :
    GLint × World :=
  (drv.getUniformLocation w.glTrace program name,
   glCall (GLCall.glGetUniformLocation program name) w)

/-! ## The stock shader definitions (lines 58-104) -/

def stockNoTexVertexSource : String :=
  "attribute vec4 position;\n" ++
  "attribute vec4 color;\n" ++
  "uniform mat4 modelView;\n" ++
  "uniform mat4 projection;\n" ++
  "varying vec4 outColor;\n" ++
  "void main() \x7b\n" ++
  "    gl_Position = projection * (modelView * position);\n" ++
  "    outColor = color;\n" ++
  "\x7d\n"

def stockNoTexFragmentSource : String :=
  "precision mediump float;\n" ++
  "varying vec4 outColor;\n" ++
  "void main() \x7b\n" ++
  "    gl_FragColor = outColor;\n" ++
  "\x7d\n"

def stockTex1VertexSource : String :=
  "attribute vec4 position;\n" ++
  "attribute vec2 texcoord;\n" ++
  "attribute vec4 color;\n" ++
  "uniform mat4 modelView;\n" ++
  "uniform mat4 projection;\n" ++
  "varying vec2 outTexcoord;\n" ++
  "varying vec4 outColor;\n" ++
  "void main() \x7b\n" ++
  "    gl_Position = projection * (modelView * position);\n" ++
  "    outColor = color;\n" ++
  "    outTexcoord = texcoord;\n" ++
  "\x7d\n"

def stockTex1FragmentSource : String :=
  "precision mediump float;\n" ++
  "uniform sampler2D texture;\n" ++
  "varying vec2 outTexcoord;\n" ++
  "varying vec4 outColor;\n" ++
  "void main() \x7b\n" ++
  "    gl_FragColor = texture2D(texture, outTexcoord) * outColor;\n" ++
  "\x7d\n"

/-- The table `s_stockShaderDefinitions`. -/
def s_stockShaderDefinitions : PLGLShaderType → PLGLShaderDefinition
  | .PLGL_SHADER_BASIC_NOTEX =>
      { vertexShader := some stockNoTexVertexSource,
        fragmentShader := some stockNoTexFragmentSource,
        textureCount := 0, texcoordCount := 0, hasColor := 1 }
  | .PLGL_SHADER_BASIC_TEX1 =>
      { vertexShader := some stockTex1VertexSource,
        fragmentShader := some stockTex1FragmentSource,
        textureCount := 1, texcoordCount := 1, hasColor := 1 }

/-! ## PL_Shaders_CompileDefinition (lines 106-200) -/

/-- The body of `if (definition->vertexShader != NULL) { .. }` (lines 122-132)
and of its fragment twin (lines 136-146), which differ in the shader type and in
the variable that receives the id.  Returns the id assigned by glCreateShader and
whether the block ran to its end (`false`: it left through a `break`). -/
def compileStage (drv : GLDriver) (shaderType : GLenum) (source : String)
    (glProgramID : GLuint) (w : World) : GLuint × Bool × World :=
  let c := glCreateShader drv shaderType w
  let e1 := glGetError drv c.2
  if e1.1 ≠ GL_NO_ERROR then (c.1, false, e1.2) else
  let e2 := glGetError drv (glCall (GLCall.glShaderSource c.1 source) e1.2)
  if e2.1 ≠ GL_NO_ERROR then (c.1, false, e2.2) else
  let e3 := glGetError drv (glCall (GLCall.glCompileShader c.1) e2.2)
  if e3.1 ≠ GL_NO_ERROR then (c.1, false, e3.2) else
  let s := glGetShaderiv drv c.1 GL_COMPILE_STATUS e3.2
  if s.1 ≠ GL_TRUE then (c.1, false, s.2) else
  let e4 := glGetError drv (glCall (GLCall.glAttachShader glProgramID c.1) s.2)
  if e4.1 ≠ GL_NO_ERROR then (c.1, false, e4.2) else
  (c.1, true, e4.2)

/-- The statement `if (source != NULL) { .. }` around a shader block: a NULL source
leaves the id variable at its initial 0. -/
def shaderBlock (drv : GLDriver) (shaderType : GLenum) (source : Option String)
    (glProgramID : GLuint) (w : World) : GLuint × Bool × World :=
  match source with
  | none => (0, true, w)
  | some src => compileStage drv shaderType src glProgramID w

/-- The code after the `do { .. } while(0)` (lines 189-199), reached by `break`. -/
def compileCleanup (glVertexShaderID glFragmentShaderID glProgramID : GLuint) (w : World) :
    Int × World :=
  let w1 := if glVertexShaderID ≠ 0 then glCall (GLCall.glDeleteShader glVertexShaderID) w else w
  let w2 := if glFragmentShaderID ≠ 0 then
              glCall (GLCall.glDeleteShader glFragmentShaderID) w1 else w1
  let w3 := if glProgramID ≠ 0 then glCall (GLCall.glDeleteProgram glProgramID) w2 else w2
  (-1, w3)

/-- Lines 158-169: the four guarded texture uniform queries. -/
def resolveTextures (drv : GLDriver) (glProgramID : GLuint) (textureCount : Int)
    (a : Slots4) (w : World) : Slots4 × World :=
  let r0 := if textureCount ≥ 1 then
      let q := glGetUniformLocation drv glProgramID "texture" w
      ({ a with s0 := toGLuint q.1 }, q.2) else (a, w)
  let r1 := if textureCount ≥ 2 then
      let q := glGetUniformLocation drv glProgramID "texture1" r0.2
      ({ r0.1 with s1 := toGLuint q.1 }, q.2) else r0
  let r2 := if textureCount ≥ 3 then
      let q := glGetUniformLocation drv glProgramID "texture2" r1.2
      ({ r1.1 with s2 := toGLuint q.1 }, q.2) else r1
  if textureCount ≥ 4 then
      let q := glGetUniformLocation drv glProgramID "texture3" r2.2
      ({ r2.1 with s3 := toGLuint q.1 }, q.2) else r2

/-- Lines 170-181: the four guarded texcoord attribute queries. -/
def resolveTexcoords (drv : GLDriver) (glProgramID : GLuint) (texcoordCount : Int)
    (a : Slots4) (w : World) : Slots4 × World :=
  let r0 := if texcoordCount ≥ 1 then
      let q := glGetAttribLocation drv glProgramID "texcoord" w
      ({ a with s0 := toGLuint q.1 }, q.2) else (a, w)
  let r1 := if texcoordCount ≥ 2 then
      let q := glGetAttribLocation drv glProgramID "texcoord2" r0.2
      ({ r0.1 with s1 := toGLuint q.1 }, q.2) else r0
  let r2 := if texcoordCount ≥ 3 then
      let q := glGetAttribLocation drv glProgramID "texcoord3" r1.2
      ({ r1.1 with s2 := toGLuint q.1 }, q.2) else r1
  if texcoordCount ≥ 4 then
      let q := glGetAttribLocation drv glProgramID "texcoord4" r2.2
      ({ r2.1 with s3 := toGLuint q.1 }, q.2) else r2

/-- Lines 149-186: the handle is acquired, the record zeroed, the definition
copied with its two source pointers cleared, and the locations resolved.  The
three local ids are in scope but are not written to the record. -/
def compileFinish (drv : GLDriver) (definition : PLGLShaderDefinition)
    (glProgramID : GLuint) (w : World) : Int × World :=
  let h := PL_Handle_AcquireID w
  let info0 : PLGLShaderInfo :=
    { zeroInfo with definition := { definition with vertexShader := none,
                                                    fragmentShader := none } }
  let p := glGetAttribLocation drv glProgramID "position" h.2
  let info1 := { info0 with glVertexAttribID := toGLuint p.1 }
  let t := resolveTextures drv glProgramID info1.definition.textureCount
             info1.glTextureUniformID p.2
  let info2 := { info1 with glTextureUniformID := t.1 }
  let c := resolveTexcoords drv glProgramID info2.definition.texcoordCount
             info2.glTexcoordAttribID t.2
  let info3 := { info2 with glTexcoordAttribID := c.1 }
  let k := if info3.definition.hasColor ≠ 0 then
      let q := glGetAttribLocation drv glProgramID "color" c.2
      ({ info3 with glColorAttribID := toGLuint q.1 }, q.2) else (info3, c.2)
  (h.1, PL_Handle_AllocateData h.1 k.1 k.2)

/-- PL_Shaders_CompileDefinition: returns the shader handle, or -1. -/
def PL_Shaders_CompileDefinition (drv : GLDriver) (definition : PLGLShaderDefinition)
    (w : World) : Int × World :=
  let w0 := (glGetError drv w).2
  let prog := glCreateProgram drv w0
  let e := glGetError drv prog.2
  if e.1 ≠ GL_NO_ERROR then compileCleanup 0 0 prog.1 e.2 else
  let v := shaderBlock drv GL_VERTEX_SHADER definition.vertexShader prog.1 e.2
  if v.2.1 = false then compileCleanup v.1 0 prog.1 v.2.2 else
  let f := shaderBlock drv GL_FRAGMENT_SHADER definition.fragmentShader prog.1 v.2.2
  if f.2.1 = false then compileCleanup v.1 f.1 prog.1 f.2.2 else
  compileFinish drv definition prog.1 f.2.2

/-! ## PL_Shaders_DeleteShader (lines 202-216) -/

def PL_Shaders_DeleteShader (shaderHandle : Int) (w : World) : World :=
  let g := PL_Handle_GetData shaderHandle w
  match g.1 with
  | none => g.2
  | some info =>
    let w1 := if info.glVertexShaderID ≠ 0 then
                glCall (GLCall.glDeleteShader info.glVertexShaderID) g.2 else g.2
    let w2 := if info.glFragmentShaderID ≠ 0 then
                glCall (GLCall.glDeleteShader info.glFragmentShaderID) w1 else w1
    let w3 := glCall (GLCall.glDeleteProgram info.glProgramID) w2
    PL_Handle_ReleaseID shaderHandle w3

/-! ## PL_Shaders_ApplyProgram and PL_Shaders_ClearProgram (lines 218-324) -/

def VertexElementSizeToGL (value : VertexElementSize) : GLenum :=
  match value with
  | .VERTEXSIZE_UNSIGNED_BYTE => GL_UNSIGNED_BYTE
  | _ => GL_FLOAT

/-- The value of `e->vertexType - VERTEX_TEXCOORD0` for the four texcoord kinds. -/
def texcoordIndex : VertexElementType → Option SlotIndex
  | .VERTEX_TEXCOORD0 => some .i0
  | .VERTEX_TEXCOORD1 => some .i1
  | .VERTEX_TEXCOORD2 => some .i2
  | .VERTEX_TEXCOORD3 => some .i3
  | _ => none

/-- Lines 243-245: `for (i = 0; i < textureCount; ++i)` over the indices it visits.
An index outside the four slots of glTextureUniformID has no defined behaviour,
which is `none`. -/
def applyTextureLoop (info : PLGLShaderInfo) : List Nat → World → Option World
  | [], w => some w
  | i :: rest, w =>
    match info.glTextureUniformID.get? i with
    | none => none
    | some loc => applyTextureLoop info rest (glCall (GLCall.glUniform1i (toGLint loc) (i : Int)) w)

/-- One round of the element loop of ApplyProgram (lines 253-282). -/
def applyElement (info : PLGLShaderInfo) (vertexData : Int) (vertexDataSize : Int)
    (e : VertexElement) (w : World) : World :=
  let vertexType := VertexElementSizeToGL e.vertexElementSize
  match e.vertexType with
  | .VERTEX_POSITION =>
    glCall (GLCall.glVertexAttribPointer info.glVertexAttribID e.size vertexType GL_FALSE
              vertexDataSize (vertexData + e.offset))
      (glCall (GLCall.glEnableVertexAttribArray info.glVertexAttribID) w)
  | .VERTEX_COLOR =>
    if info.glColorAttribID ≠ 0 then
      glCall (GLCall.glVertexAttribPointer info.glColorAttribID e.size vertexType GL_FALSE
                vertexDataSize (vertexData + e.offset))
        (glCall (GLCall.glEnableVertexAttribArray info.glColorAttribID) w)
    else w
  | t =>
    match texcoordIndex t with
    | none => w
    | some k =>
      let attribID : GLint := toGLint (info.glTexcoordAttribID.get k)
      if attribID ≠ 0 then
        glCall (GLCall.glVertexAttribPointer (toGLuint attribID) e.size vertexType GL_FALSE
                  vertexDataSize (vertexData + e.offset))
          (glCall (GLCall.glEnableVertexAttribArray (toGLuint attribID)) w)
      else w

/-- The element loop `for (i = 0; i < elementCount; ++i, ++e)` of ApplyProgram. -/
def applyElements (info : PLGLShaderInfo) (vertexData : Int) (vertexDataSize : Int) :
    List VertexElement → World → World
  | [], w => w
  | e :: rest, w =>
    applyElements info vertexData vertexDataSize rest
      (applyElement info vertexData vertexDataSize e w)

/-- PL_Shaders_ApplyProgram.  The argument textureIDs is never read.  The result is
`none` when the texture loop indexes outside glTextureUniformID. -/
def PL_Shaders_ApplyProgram (shaderHandle : Int) (vertexData : Int)
    (definition : Option VertexDefinition) (textureCount : Int) (w : World) : Option World :=
  let g := PL_Handle_GetData shaderHandle w
  match g.1 with
  | none => some g.2
  | some info =>
    let w1 := glCall (GLCall.glUseProgram info.glProgramID) g.2
    let textureCount1 := if textureCount > info.definition.textureCount then
                           info.definition.textureCount else textureCount
    match applyTextureLoop info (List.range textureCount1.toNat) w1 with
    | none => none
    | some w2 =>
      match definition with
      | none => some w2
      | some d => some (applyElements info vertexData d.vertexByteSize d.elements w2)

/-- One round of the element loop of ClearProgram (lines 300-319). -/
def clearElement (info : PLGLShaderInfo) (e : VertexElement) (w : World) : World :=
  match e.vertexType with
  | .VERTEX_POSITION => glCall (GLCall.glDisableVertexAttribArray info.glVertexAttribID) w
  | .VERTEX_COLOR =>
    if info.glColorAttribID ≠ 0 then
      glCall (GLCall.glDisableVertexAttribArray info.glColorAttribID) w
    else w
  | t =>
    match texcoordIndex t with
    | none => w
    | some k =>
      let attribID : GLint := toGLint (info.glTexcoordAttribID.get k)
      if attribID ≠ 0 then glCall (GLCall.glDisableVertexAttribArray (toGLuint attribID)) w
      else w

/-- The element loop of ClearProgram. -/
def clearElements (info : PLGLShaderInfo) : List VertexElement → World → World
  | [], w => w
  | e :: rest, w => clearElements info rest (clearElement info e w)

/-- PL_Shaders_ClearProgram. -/
def PL_Shaders_ClearProgram (shaderHandle : Int) (definition : Option VertexDefinition)
    (w : World) : World :=
  let g := PL_Handle_GetData shaderHandle w
  match g.1 with
  | none => g.2
  | some info =>
    let w1 := match definition with
      | none => g.2
      | some d => clearElements info d.elements g.2
    glCall (GLCall.glUseProgram 0) w1

/-! ## The stock programs (lines 326-347) -/

/-- Read of `s_stockShaderIDs[shaderType]`. -/
def stockGet (ids : Int × Int) : PLGLShaderType → Int
  | .PLGL_SHADER_BASIC_NOTEX => ids.1
  | .PLGL_SHADER_BASIC_TEX1 => ids.2

/-- Write of `s_stockShaderIDs[shaderType] = v`. -/
def stockSet (ids : Int × Int) (t : PLGLShaderType) (v : Int) : Int × Int :=
  match t with
  | .PLGL_SHADER_BASIC_NOTEX => (v, ids.2)
  | .PLGL_SHADER_BASIC_TEX1 => (ids.1, v)

/-- The values `i` takes in `for (i = 0; i < PLGL_SHADER_END; ++i)`. -/
def stockShaderTypes : List PLGLShaderType :=
  [.PLGL_SHADER_BASIC_NOTEX, .PLGL_SHADER_BASIC_TEX1]

/-- The static initialiser `{ 0 }` of s_stockShaderIDs. -/
def initialStockShaderIDs : Int × Int := (0, 0)

def PL_Shaders_GetStockProgramForID (shaderType : PLGLShaderType) (w : World) : Int :=
  stockGet w.s_stockShaderIDs shaderType

/-- The loop of PL_Shaders_Init over the shader types still to visit. -/
def initLoop (drv : GLDriver) : List PLGLShaderType → World → World
  | [], w => w
  | i :: rest, w =>
    let r := PL_Shaders_CompileDefinition drv (s_stockShaderDefinitions i) w
    initLoop drv rest { r.2 with s_stockShaderIDs := stockSet r.2.s_stockShaderIDs i r.1 }

def PL_Shaders_Init (drv : GLDriver) (w : World) : World :=
  initLoop drv stockShaderTypes w

/-- The loop of PL_Shaders_Cleanup over the shader types still to visit. -/
def cleanupLoop : List PLGLShaderType → World → World
  | [], w => w
  | i :: rest, w =>
    let w1 := PL_Shaders_DeleteShader (stockGet w.s_stockShaderIDs i) w
    cleanupLoop rest { w1 with s_stockShaderIDs := stockSet w1.s_stockShaderIDs i 0 }

def PL_Shaders_Cleanup (w : World) : World :=
  cleanupLoop stockShaderTypes w

/-! ## Concrete drivers and worlds used to run the code -/

/-- The number of object-creating calls in a history. -/
def countCreates : List GLCall → Nat
  | [] => 0
  | GLCall.glCreateProgram :: rest => countCreates rest + 1
  | GLCall.glCreateShader _ :: rest => countCreates rest + 1
  | _ :: rest => countCreates rest

/-- A well-behaved driver: no call raises an error, every shader compiles,
objects get the ids 1, 2, 3, .. in creation order, and the attributes
position, texcoord and color sit at the locations 0, 1 and 2. -/
def goodDriver : GLDriver :=
  { getError := fun _ => GL_NO_ERROR,
    createProgram := fun h => countCreates h + 1,
    createShader := fun h _ => countCreates h + 1,
    getShaderiv := fun _ _ _ => GL_TRUE,
    getAttribLocation := fun _ _ name =>
      if name = "position" then 0 else if name = "texcoord" then 1
      else if name = "color" then 2 else -1,
    getUniformLocation := fun _ _ name => if name = "texture" then 0 else -1 }

/-- The state at program start: nothing issued, no handle live. -/
def initialWorld : World :=
  { glTrace := [], handles := { entries := [], nextID := 1, log := [] },
    s_stockShaderIDs := initialStockShaderIDs }

/-- A hand-made state with one live shader handle, 5, whose record has
textureCount 2, texcoordCount 1 and a color attribute. -/
def sampleWorld : World :=
  { glTrace := [],
    handles :=
      { entries := [(5, { definition := { vertexShader := none, fragmentShader := none,
                                          textureCount := 2, texcoordCount := 1, hasColor := 1 },
                          glVertexShaderID := 0, glFragmentShaderID := 0, glProgramID := 0,
                          glVertexAttribID := 1,
                          glTextureUniformID := ⟨7, 8, 0, 0⟩,
                          glTexcoordAttribID := ⟨2, 0, 0, 0⟩,
                          glColorAttribID := 3 })],
        nextID := 6, log := [] },
    s_stockShaderIDs := initialStockShaderIDs }

/-- The record of handle 5 in `sampleWorld`. -/
def sampleInfo : PLGLShaderInfo :=
  { definition := { vertexShader := none, fragmentShader := none,
                    textureCount := 2, texcoordCount := 1, hasColor := 1 },
    glVertexShaderID := 0, glFragmentShaderID := 0, glProgramID := 0,
    glVertexAttribID := 1,
    glTextureUniformID := ⟨7, 8, 0, 0⟩,
    glTexcoordAttribID := ⟨2, 0, 0, 0⟩,
    glColorAttribID := 3 }

/-- A vertex layout of a position, a texcoord, a color and a second texcoord. -/
def sampleLayout : VertexDefinition :=
  { elements :=
      [{ vertexType := .VERTEX_POSITION, size := 3,
         vertexElementSize := .VERTEXSIZE_FLOAT, offset := 0 },
       { vertexType := .VERTEX_TEXCOORD0, size := 2,
         vertexElementSize := .VERTEXSIZE_FLOAT, offset := 12 },
       { vertexType := .VERTEX_COLOR, size := 4,
         vertexElementSize := .VERTEXSIZE_UNSIGNED_BYTE, offset := 20 },
       { vertexType := .VERTEX_TEXCOORD1, size := 2,
         vertexElementSize := .VERTEXSIZE_FLOAT, offset := 24 }],
    vertexByteSize := 32 }

/-! ## Observations on call traces -/

def isLink : GLCall → Bool
  | .glLinkProgram _ => true
  | _ => false

def isDeletion : GLCall → Bool
  | .glDeleteShader _ => true
  | .glDeleteProgram _ => true
  | _ => false

def isLocationQuery : GLCall → Bool
  | .glGetAttribLocation _ _ => true
  | .glGetUniformLocation _ _ => true
  | _ => false

/-- Whether the call polls the error flag and the driver reports an error, or
queries a shader parameter and the driver answers something other than GL_TRUE. -/
def checkFails (drv : GLDriver) (history : List GLCall) : GLCall → Bool
  | .glGetError => decide (drv.getError history ≠ GL_NO_ERROR)
  | .glGetShaderiv shader pname => decide (drv.getShaderiv history shader pname ≠ GL_TRUE)
  | _ => false

/-- Whether some call of `calls`, issued in this order after `history`, is a
failing check. -/
def checksFail (drv : GLDriver) : List GLCall → List GLCall → Bool
  | _, [] => false
  | history, c :: rest => checkFails drv history c || checksFail drv (history ++ [c]) rest

/-- The ids the driver returns to the glCreateShader calls among `calls`. -/
def createdShaders (drv : GLDriver) : List GLCall → List GLCall → List GLuint
  | _, [] => []
  | history, c :: rest =>
    (match c with
     | .glCreateShader shaderType => [drv.createShader history shaderType]
     | _ => []) ++ createdShaders drv (history ++ [c]) rest

/-- The ids the driver returns to the glCreateProgram calls among `calls`. -/
def createdPrograms (drv : GLDriver) : List GLCall → List GLCall → List GLuint
  | _, [] => []
  | history, c :: rest =>
    (match c with
     | .glCreateProgram => [drv.createProgram history]
     | _ => []) ++ createdPrograms drv (history ++ [c]) rest

/-- The deletions that dispose of the given shader and program ids, ids of value
0 left out. -/
def deletionsOf (shaders programs : List GLuint) : List GLCall :=
  (shaders.filter (fun i => decide (i ≠ 0))).map GLCall.glDeleteShader ++
  (programs.filter (fun i => decide (i ≠ 0))).map GLCall.glDeleteProgram

/-- The uniform names of the four texture slots. -/
def textureUniformName : SlotIndex → String
  | .i0 => "texture"
  | .i1 => "texture1"
  | .i2 => "texture2"
  | .i3 => "texture3"

/-- The attribute names of the four texcoord slots. -/
def texcoordAttribName : SlotIndex → String
  | .i0 => "texcoord"
  | .i1 => "texcoord2"
  | .i2 => "texcoord3"
  | .i3 => "texcoord4"

/-- The uniform queries of the texture slots: slot k is queried exactly when
k < textureCount, in increasing order of k. -/
def textureQueries (program : GLuint) (textureCount : Int) : List GLCall :=
  (allSlots.filter (fun k => decide ((k.toNat : Int) < textureCount))).map
    (fun k => GLCall.glGetUniformLocation program (textureUniformName k))

/-- The attribute queries of the texcoord slots: slot k is queried exactly when
k < texcoordCount, in increasing order of k. -/
def texcoordQueries (program : GLuint) (texcoordCount : Int) : List GLCall :=
  (allSlots.filter (fun k => decide ((k.toNat : Int) < texcoordCount))).map
    (fun k => GLCall.glGetAttribLocation program (texcoordAttribName k))

/-- The location queries that a definition calls for, in the words of the
specification: position; texture slot k exactly when k < textureCount; texcoord
slot k exactly when k < texcoordCount; color exactly when hasColor is non-zero. -/
def locationQueries (program : GLuint) (definition : PLGLShaderDefinition) : List GLCall :=
  [GLCall.glGetAttribLocation program "position"] ++
  textureQueries program definition.textureCount ++
  texcoordQueries program definition.texcoordCount ++
  (if definition.hasColor ≠ 0 then [GLCall.glGetAttribLocation program "color"] else [])

/-- The value of texture slot k after the queries, `history` being the calls
issued before the first texture query: the answer to the query of slot k, given
after the queries of the slots below k, and 0 when slot k is not queried. -/
def textureSlot (drv : GLDriver) (history : List GLCall) (program : GLuint)
    (textureCount : Int) (k : SlotIndex) : GLuint :=
  if (k.toNat : Int) < textureCount then
    toGLuint (drv.getUniformLocation (history ++ textureQueries program (k.toNat : Int))
      program (textureUniformName k))
  else 0

/-- The value of texcoord slot k after the queries, `history` being the calls
issued before the first texcoord query. -/
def texcoordSlot (drv : GLDriver) (history : List GLCall) (program : GLuint)
    (texcoordCount : Int) (k : SlotIndex) : GLuint :=
  if (k.toNat : Int) < texcoordCount then
    toGLuint (drv.getAttribLocation (history ++ texcoordQueries program (k.toNat : Int))
      program (texcoordAttribName k))
  else 0

/-- The record that lines 149-186 leave under the new handle when entered with
the call history `history`: each location slot holds the answer to its query, or
0 when it is not queried, and the three object id fields keep the 0 of the
memset, no statement assigns them. -/
def recordOf (drv : GLDriver) (history : List GLCall) (program : GLuint)
    (definition : PLGLShaderDefinition) : PLGLShaderInfo :=
  let h1 := history ++ [GLCall.glGetAttribLocation program "position"]
  let h2 := h1 ++ textureQueries program definition.textureCount
  let h3 := h2 ++ texcoordQueries program definition.texcoordCount
  { definition := { definition with vertexShader := none, fragmentShader := none },
    glVertexShaderID := 0, glFragmentShaderID := 0, glProgramID := 0,
    glVertexAttribID := toGLuint (drv.getAttribLocation history program "position"),
    glTextureUniformID :=
      ⟨textureSlot drv h1 program definition.textureCount .i0,
       textureSlot drv h1 program definition.textureCount .i1,
       textureSlot drv h1 program definition.textureCount .i2,
       textureSlot drv h1 program definition.textureCount .i3⟩,
    glTexcoordAttribID :=
      ⟨texcoordSlot drv h2 program definition.texcoordCount .i0,
       texcoordSlot drv h2 program definition.texcoordCount .i1,
       texcoordSlot drv h2 program definition.texcoordCount .i2,
       texcoordSlot drv h2 program definition.texcoordCount .i3⟩,
    glColorAttribID :=
      if definition.hasColor ≠ 0 then toGLuint (drv.getAttribLocation h3 program "color")
      else 0 }

/-- The GL calls issued between the state `w` and the later state `w1`. -/
def callsSince (w w1 : World) : List GLCall :=
  w1.glTrace.drop w.glTrace.length

def isCheck : GLCall → Bool
  | .glGetError => true
  | .glGetShaderiv _ _ => true
  | _ => false

def isCreation : GLCall → Bool
  | .glCreateProgram => true
  | .glCreateShader _ => true
  | _ => false

/-- The indices passed to glEnableVertexAttribArray, in call order. -/
def enabledIndices : List GLCall → List GLuint
  | [] => []
  | GLCall.glEnableVertexAttribArray i :: rest => i :: enabledIndices rest
  | _ :: rest => enabledIndices rest

/-- The indices passed to glDisableVertexAttribArray, in call order. -/
def disabledIndices : List GLCall → List GLuint
  | [] => []
  | GLCall.glDisableVertexAttribArray i :: rest => i :: disabledIndices rest
  | _ :: rest => disabledIndices rest

def isUniform1i : GLCall → Bool
  | .glUniform1i _ _ => true
  | _ => false

/-- The part of the GL context that ApplyProgram and ClearProgram act on: the
active program and the set of enabled vertex attribute arrays. -/
structure GLState where
  program : GLuint
  enabled : List GLuint
  deriving DecidableEq, Repr

/-- The effect of one call on the GL context, as the GL API defines it for
glUseProgram, glEnableVertexAttribArray and glDisableVertexAttribArray; the other
calls leave both components alone. -/
def glStep (s : GLState) : GLCall → GLState
  | .glUseProgram p => { s with program := p }
  | .glEnableVertexAttribArray i => { s with enabled := i :: s.enabled }
  | .glDisableVertexAttribArray i =>
      { s with enabled := s.enabled.filter (fun j => decide (j ≠ i)) }
  | _ => s

/-- The GL context after a sequence of calls. -/
def glRun (s : GLState) (calls : List GLCall) : GLState :=
  calls.foldl glStep s

/-- The attribute location that the layout element binds, with location 0 read as
absent: position always; texcoord k when k < texcoordCount and the location
resolved for it is not 0; color when hasColor is set and the location resolved
for it is not 0. -/
def boundLocation (definition : PLGLShaderDefinition) (info : PLGLShaderInfo) :
    VertexElementType → Option GLuint
  | .VERTEX_POSITION => some info.glVertexAttribID
  | .VERTEX_COLOR =>
      if definition.hasColor ≠ 0 ∧ info.glColorAttribID ≠ 0 then some info.glColorAttribID
      else none
  | .VERTEX_OTHER => none
  | t =>
      match texcoordIndex t with
      | none => none
      | some k =>
        if (k.toNat : Int) < definition.texcoordCount ∧ info.glTexcoordAttribID.get k ≠ 0 then
          some (info.glTexcoordAttribID.get k)
        else none

/-- The two calls that bind a layout element to its location, none when the
element is not bound. -/
def bindCalls (definition : PLGLShaderDefinition) (info : PLGLShaderInfo)
    (vertexData : Int) (vertexByteSize : Int) (e : VertexElement) : List GLCall :=
  match boundLocation definition info e.vertexType with
  | none => []
  | some loc =>
    [GLCall.glEnableVertexAttribArray loc,
     GLCall.glVertexAttribPointer loc e.size
       (if e.vertexElementSize = .VERTEXSIZE_UNSIGNED_BYTE then GL_UNSIGNED_BYTE else GL_FLOAT)
       GL_FALSE vertexByteSize (vertexData + e.offset)]

/-- The attribute location that the switch of ApplyProgram and of ClearProgram
selects for an element kind under a record, `none` when no case acts. -/
def touchedLocation (info : PLGLShaderInfo) : VertexElementType → Option GLuint
  | .VERTEX_POSITION => some info.glVertexAttribID
  | .VERTEX_COLOR => if info.glColorAttribID ≠ 0 then some info.glColorAttribID else none
  | .VERTEX_OTHER => none
  | t =>
      match texcoordIndex t with
      | none => none
      | some k =>
        if toGLint (info.glTexcoordAttribID.get k) ≠ 0 then
          some (toGLuint (toGLint (info.glTexcoordAttribID.get k)))
        else none

/-- The handles passed to PL_Handle_GetData, in call order.  DeleteShader makes
exactly one such call, first thing, on the handle it is given. -/
def lookedUpHandles : List HandleCall → List Int
  | [] => []
  | HandleCall.getData h :: rest => h :: lookedUpHandles rest
  | _ :: rest => lookedUpHandles rest

/-- The steps of one shader block, in the words of the specification: create,
source, compile and attach, each followed by a poll of the error flag, with the
query of the compile status between the poll after compile and the attach. -/
def shaderSteps (shaderType : GLenum) (source : String) (program shader : GLuint) :
    List GLCall :=
  [GLCall.glCreateShader shaderType, GLCall.glGetError,
   GLCall.glShaderSource shader source, GLCall.glGetError,
   GLCall.glCompileShader shader, GLCall.glGetError,
   GLCall.glGetShaderiv shader GL_COMPILE_STATUS,
   GLCall.glAttachShader program shader, GLCall.glGetError]

/-- The steps of a shader that may not be supplied: none for a NULL source. -/
def blockSteps (shaderType : GLenum) (source : Option String) (program shader : GLuint) :
    List GLCall :=
  match source with
  | none => []
  | some src => shaderSteps shaderType src program shader

/-- The steps that a definition calls for after the initial clearing poll, when
none of them fails: glCreateProgram and its poll, then the steps of the vertex
shader when supplied, then those of the fragment shader when supplied.  The ids
are the ones the driver hands out on the way; `history` is the call history up to
and including the clearing poll. -/
def plannedCalls (drv : GLDriver) (history : List GLCall)
    (definition : PLGLShaderDefinition) : List GLCall :=
  let program := drv.createProgram history
  let a := [GLCall.glCreateProgram, GLCall.glGetError]
  let v := blockSteps GL_VERTEX_SHADER definition.vertexShader program
    (drv.createShader (history ++ a) GL_VERTEX_SHADER)
  let f := blockSteps GL_FRAGMENT_SHADER definition.fragmentShader program
    (drv.createShader (history ++ a ++ v) GL_FRAGMENT_SHADER)
  a ++ v ++ f

/-- The part of `calls` that is issued when the run stops right after the first
failing check: all of `calls` when no check fails. -/
def executed (drv : GLDriver) : List GLCall → List GLCall → List GLCall
  | _, [] => []
  | history, c :: rest =>
    if checkFails drv history c then [c] else c :: executed drv (history ++ [c]) rest

/-! ## Lemmas on traces -/

theorem checksFail_append (drv : GLDriver) (a b : List GLCall) :
    ∀ history, checksFail drv history (a ++ b)
      = (checksFail drv history a || checksFail drv (history ++ a) b) := by
  induction a with
  | nil => intro history; simp [checksFail]
  | cons c rest ih =>
    intro history
    simp [checksFail, ih, Bool.or_assoc]

theorem createdShaders_append (drv : GLDriver) (a b : List GLCall) :
    ∀ history, createdShaders drv history (a ++ b)
      = createdShaders drv history a ++ createdShaders drv (history ++ a) b := by
  induction a with
  | nil => intro history; simp [createdShaders]
  | cons c rest ih =>
    intro history
    simp [createdShaders, ih]

theorem createdPrograms_append (drv : GLDriver) (a b : List GLCall) :
    ∀ history, createdPrograms drv history (a ++ b)
      = createdPrograms drv history a ++ createdPrograms drv (history ++ a) b := by
  induction a with
  | nil => intro history; simp [createdPrograms]
  | cons c rest ih =>
    intro history
    simp [createdPrograms, ih]

/-- What one shader block does: the calls it issues, its verdict and its id. -/
theorem compileStage_spec (drv : GLDriver) (shaderType : GLenum) (source : String)
    (glProgramID : GLuint) (w : World) :
    ∃ calls, (compileStage drv shaderType source glProgramID w).2.2
        = { w with glTrace := w.glTrace ++ calls } ∧
      checksFail drv w.glTrace calls
        = !(compileStage drv shaderType source glProgramID w).2.1 ∧
      createdShaders drv w.glTrace calls
        = [(compileStage drv shaderType source glProgramID w).1] ∧
      (compileStage drv shaderType source glProgramID w).1
        = drv.createShader w.glTrace shaderType ∧
      createdPrograms drv w.glTrace calls = [] ∧
      calls.filter isDeletion = [] ∧ calls.filter isLink = [] ∧
      calls.filter isLocationQuery = [] := by
  unfold compileStage
  simp only [glCreateShader, glGetError, glGetShaderiv, glCall]
  split_ifs with h1 h2 h3 h4 h5
  all_goals
    refine ⟨_, by simp only [List.append_assoc]; rfl, ?_⟩
    simp_all [checksFail, checkFails, createdShaders, createdPrograms, isDeletion, isLink,
      isLocationQuery]

/-- The five ways a count compares with the slot indices 0..3. -/
theorem count_cases (n : Int) :
    (¬ n ≥ 1 ∧ ¬ n ≥ 2 ∧ ¬ n ≥ 3 ∧ ¬ n ≥ 4 ∧ ¬ 0 < n ∧ ¬ 1 < n ∧ ¬ 2 < n ∧ ¬ 3 < n) ∨
    (n ≥ 1 ∧ ¬ n ≥ 2 ∧ ¬ n ≥ 3 ∧ ¬ n ≥ 4 ∧ 0 < n ∧ ¬ 1 < n ∧ ¬ 2 < n ∧ ¬ 3 < n) ∨
    (n ≥ 1 ∧ n ≥ 2 ∧ ¬ n ≥ 3 ∧ ¬ n ≥ 4 ∧ 0 < n ∧ 1 < n ∧ ¬ 2 < n ∧ ¬ 3 < n) ∨
    (n ≥ 1 ∧ n ≥ 2 ∧ n ≥ 3 ∧ ¬ n ≥ 4 ∧ 0 < n ∧ 1 < n ∧ 2 < n ∧ ¬ 3 < n) ∨
    (n ≥ 1 ∧ n ≥ 2 ∧ n ≥ 3 ∧ n ≥ 4 ∧ 0 < n ∧ 1 < n ∧ 2 < n ∧ 3 < n) := by
  omega

theorem resolveTextures_spec (drv : GLDriver) (program : GLuint) (n : Int) (w : World) :
    resolveTextures drv program n ⟨0, 0, 0, 0⟩ w
      = (⟨textureSlot drv w.glTrace program n .i0, textureSlot drv w.glTrace program n .i1,
          textureSlot drv w.glTrace program n .i2, textureSlot drv w.glTrace program n .i3⟩,
         { w with glTrace := w.glTrace ++ textureQueries program n }) := by
  rcases count_cases n with h | h | h | h | h
  all_goals
    obtain ⟨h1, h2, h3, h4, h5, h6, h7, h8⟩ := h
    simp [resolveTextures, glGetUniformLocation, glCall, textureSlot, textureQueries,
      textureUniformName, allSlots, SlotIndex.toNat, *]

theorem resolveTexcoords_spec (drv : GLDriver) (program : GLuint) (n : Int) (w : World) :
    resolveTexcoords drv program n ⟨0, 0, 0, 0⟩ w
      = (⟨texcoordSlot drv w.glTrace program n .i0, texcoordSlot drv w.glTrace program n .i1,
          texcoordSlot drv w.glTrace program n .i2, texcoordSlot drv w.glTrace program n .i3⟩,
         { w with glTrace := w.glTrace ++ texcoordQueries program n }) := by
  rcases count_cases n with h | h | h | h | h
  all_goals
    obtain ⟨h1, h2, h3, h4, h5, h6, h7, h8⟩ := h
    simp [resolveTexcoords, glGetAttribLocation, glCall, texcoordSlot, texcoordQueries,
      texcoordAttribName, allSlots, SlotIndex.toNat, *]

/-- What lines 149-186 do, for every definition and driver. -/
theorem compileFinish_spec (drv : GLDriver) (definition : PLGLShaderDefinition)
    (glProgramID : GLuint) (w : World) :
    compileFinish drv definition glProgramID w
      = ((w.handles.nextID : Int),
         { glTrace := w.glTrace ++ locationQueries glProgramID definition,
           handles := { entries := ((w.handles.nextID : Int),
                                    recordOf drv w.glTrace glProgramID definition)
                                   :: w.handles.entries,
                        nextID := w.handles.nextID + 1,
                        log := w.handles.log ++
                          [HandleCall.acquireID,
                           HandleCall.allocateData (w.handles.nextID : Int)] },
           s_stockShaderIDs := w.s_stockShaderIDs }) := by
  unfold compileFinish
  simp only [zeroInfo, resolveTextures_spec, resolveTexcoords_spec]
  by_cases hcol : definition.hasColor = 0
  all_goals
    simp [glGetAttribLocation, glCall, PL_Handle_AcquireID, PL_Handle_AllocateData,
      locationQueries, recordOf, hcol]

theorem deletionsOf_zero_cons (l p : List GLuint) :
    deletionsOf (0 :: l) p = deletionsOf l p := by
  simp [deletionsOf]

theorem deletionsOf_cons_zero (a : GLuint) (l p : List GLuint) :
    deletionsOf (a :: 0 :: l) p = deletionsOf (a :: l) p := by
  by_cases h : a = 0 <;> simp [deletionsOf, h]

/-- The clean-up deletes the three ids it is given, those of value 0 left out. -/
theorem compileCleanup_spec (v f p : GLuint) (w : World) :
    compileCleanup v f p w
      = (-1, { w with glTrace := w.glTrace ++ deletionsOf [v, f] [p] }) := by
  by_cases hv : v = 0 <;> by_cases hf : f = 0 <;> by_cases hp : p = 0 <;>
    simp [compileCleanup, deletionsOf, glCall, hv, hf, hp]

/-- What a guarded shader block does. -/
theorem shaderBlock_spec (drv : GLDriver) (shaderType : GLenum) (source : Option String)
    (glProgramID : GLuint) (w : World) :
    ∃ calls, (shaderBlock drv shaderType source glProgramID w).2.2
        = { w with glTrace := w.glTrace ++ calls } ∧
      checksFail drv w.glTrace calls
        = !(shaderBlock drv shaderType source glProgramID w).2.1 ∧
      createdShaders drv w.glTrace calls
        = (match source with
           | none => []
           | some _ => [(shaderBlock drv shaderType source glProgramID w).1]) ∧
      (shaderBlock drv shaderType source glProgramID w).1
        = (match source with
           | none => 0
           | some _ => drv.createShader w.glTrace shaderType) ∧
      createdPrograms drv w.glTrace calls = [] ∧
      calls.filter isDeletion = [] ∧ calls.filter isLink = [] ∧
      calls.filter isLocationQuery = [] ∧ (source = none → calls = []) := by
  cases source with
  | none =>
    refine ⟨[], ?_⟩
    simp [shaderBlock, checksFail, createdShaders, createdPrograms]
  | some src =>
    obtain ⟨calls, h1, h2, h3, h4, h5, h6, h7, h8⟩ :=
      compileStage_spec drv shaderType src glProgramID w
    exact ⟨calls, h1, h2, h3, h4, h5, h6, h7, h8, by simp⟩

/-- The two ways PL_Shaders_CompileDefinition ends.  `calls` are the calls after
the initial error poll and before the clean-up or the location queries. -/
theorem compile_paths (drv : GLDriver) (definition : PLGLShaderDefinition) (w : World) :
    ∃ calls,
      createdPrograms drv (w.glTrace ++ [GLCall.glGetError]) calls
        = [drv.createProgram (w.glTrace ++ [GLCall.glGetError])] ∧
      calls.filter isDeletion = [] ∧ calls.filter isLink = [] ∧
      calls.filter isLocationQuery = [] ∧
      (definition.vertexShader = none → definition.fragmentShader = none →
        calls = [GLCall.glCreateProgram, GLCall.glGetError]) ∧
      ((checksFail drv (w.glTrace ++ [GLCall.glGetError]) calls = true ∧
        PL_Shaders_CompileDefinition drv definition w
          = (-1, { w with glTrace := (w.glTrace ++ GLCall.glGetError :: calls) ++
                     (deletionsOf (createdShaders drv (w.glTrace ++ [GLCall.glGetError]) calls)
                       [drv.createProgram (w.glTrace ++ [GLCall.glGetError])]) })) ∨
       (checksFail drv (w.glTrace ++ [GLCall.glGetError]) calls = false ∧
        PL_Shaders_CompileDefinition drv definition w
          = compileFinish drv definition (drv.createProgram (w.glTrace ++ [GLCall.glGetError]))
              { w with glTrace := w.glTrace ++ GLCall.glGetError :: calls })) := by
  unfold PL_Shaders_CompileDefinition
  simp only [glGetError, glCreateProgram, glCall]
  by_cases he : drv.getError (w.glTrace ++ [GLCall.glGetError] ++ [GLCall.glCreateProgram])
      = GL_NO_ERROR
  · simp only [he, ne_eq, not_true_eq_false, if_false]
    generalize hv : shaderBlock drv GL_VERTEX_SHADER _ _ _ = rv
    have sv := hv ▸ shaderBlock_spec drv GL_VERTEX_SHADER _ _ _
    obtain ⟨vid, vok, vw⟩ := rv
    obtain ⟨cv, v1, v2, v3, v4, v5, v6, v7, v8, v9⟩ := sv
    simp only at v1 v2 v3 v4
    subst v1
    cases vok
    · refine ⟨[GLCall.glCreateProgram, GLCall.glGetError] ++ cv, ?_⟩
      cases hvs : definition.vertexShader <;>
      simp_all [checksFail_append, createdShaders_append, createdPrograms_append, checksFail,
        checkFails, createdPrograms, createdShaders, isDeletion, isLink, isLocationQuery,
        compileCleanup_spec, deletionsOf_zero_cons, deletionsOf_cons_zero, List.filter_append]
    · simp only [Bool.true_eq_false, if_false]
      generalize hf : shaderBlock drv GL_FRAGMENT_SHADER _ _ _ = rf
      have sf := hf ▸ shaderBlock_spec drv GL_FRAGMENT_SHADER _ _ _
      obtain ⟨fid, fok, fw⟩ := rf
      obtain ⟨cf, f1, f2, f3, f4, f5, f6, f7, f8, f9⟩ := sf
      simp only at f1 f2 f3 f4
      subst f1
      refine ⟨[GLCall.glCreateProgram, GLCall.glGetError] ++ cv ++ cf, ?_⟩
      cases fok <;> cases hvs : definition.vertexShader <;>
        cases hfs : definition.fragmentShader <;>
      simp_all [checksFail_append, createdShaders_append, createdPrograms_append, checksFail,
        checkFails, createdPrograms, createdShaders, isDeletion, isLink, isLocationQuery,
        compileCleanup_spec, deletionsOf_zero_cons, deletionsOf_cons_zero, List.filter_append]
  · simp only [he, ne_eq, not_false_eq_true, if_true]
    refine ⟨[GLCall.glCreateProgram, GLCall.glGetError], ?_⟩
    simp only [List.append_assoc, List.singleton_append] at he
    simp [he, checksFail, checkFails, createdPrograms, createdShaders, isDeletion, isLink,
      isLocationQuery, compileCleanup_spec, deletionsOf_zero_cons, deletionsOf_cons_zero]

theorem checksFail_of_no_check (drv : GLDriver) (l : List GLCall) :
    ∀ history, l.filter isCheck = [] → checksFail drv history l = false := by
  induction l with
  | nil => intro history _; rfl
  | cons c rest ih =>
    intro history h
    cases c <;> simp_all [checksFail, checkFails, isCheck, List.filter_cons]

theorem createdShaders_of_no_creation (drv : GLDriver) (l : List GLCall) :
    ∀ history, l.filter isCreation = [] → createdShaders drv history l = [] := by
  induction l with
  | nil => intro history _; rfl
  | cons c rest ih =>
    intro history h
    cases c <;> simp_all [createdShaders, isCreation, List.filter_cons]

theorem createdPrograms_of_no_creation (drv : GLDriver) (l : List GLCall) :
    ∀ history, l.filter isCreation = [] → createdPrograms drv history l = [] := by
  induction l with
  | nil => intro history _; rfl
  | cons c rest ih =>
    intro history h
    cases c <;> simp_all [createdPrograms, isCreation, List.filter_cons]

theorem deletionsOf_filter (a b : List GLuint) :
    (deletionsOf a b).filter isDeletion = deletionsOf a b ∧
    (deletionsOf a b).filter isCheck = [] ∧
    (deletionsOf a b).filter isCreation = [] ∧
    (deletionsOf a b).filter isLink = [] ∧
    (deletionsOf a b).filter isLocationQuery = [] := by
  refine ⟨?_, ?_, ?_, ?_, ?_⟩ <;>
    simp only [deletionsOf, List.filter_append, List.filter_map, List.append_eq_nil,
      List.filter_eq_nil_iff, List.map_eq_nil_iff, Function.comp_def, isDeletion, isCheck,
      isCreation, isLink, isLocationQuery] <;>
    simp

theorem locationQueries_filter (program : GLuint) (definition : PLGLShaderDefinition) :
    (locationQueries program definition).filter isLocationQuery
      = locationQueries program definition ∧
    (locationQueries program definition).filter isCheck = [] ∧
    (locationQueries program definition).filter isCreation = [] ∧
    (locationQueries program definition).filter isLink = [] ∧
    (locationQueries program definition).filter isDeletion = [] := by
  by_cases hc : definition.hasColor = 0 <;>
  refine ⟨?_, ?_, ?_, ?_, ?_⟩ <;>
    simp only [locationQueries, textureQueries, texcoordQueries, List.filter_append,
      List.filter_map, List.append_eq_nil, hc, ne_eq, not_true_eq_false, not_false_eq_true,
      if_true, if_false,
      List.filter_eq_nil_iff, List.map_eq_nil_iff, Function.comp_def, isDeletion, isCheck,
      isCreation, isLink, isLocationQuery, List.filter_cons, List.filter_nil] <;>
    simp

theorem callsSince_append (w w1 : World) (l : List GLCall)
    (h : w1.glTrace = w.glTrace ++ l) : callsSince w w1 = l := by
  simp [callsSince, h]

theorem executed_append (drv : GLDriver) (a b : List GLCall) :
    ∀ history, executed drv history (a ++ b)
      = if checksFail drv history a then executed drv history a
        else a ++ executed drv (history ++ a) b := by
  induction a with
  | nil => intro history; simp [checksFail, executed]
  | cons c rest ih =>
    intro history
    by_cases hc : checkFails drv history c = true
    · simp [executed, checksFail, hc]
    · simp only [Bool.not_eq_true] at hc
      rw [List.cons_append]
      have hr := ih (history ++ [c])
      by_cases hf : checksFail drv (history ++ [c]) rest = true
      · simp [executed, checksFail, hc, hr, hf]
      · simp [executed, checksFail, hc, hr, hf]

theorem executed_of_pass (drv : GLDriver) (a : List GLCall) :
    ∀ history, checksFail drv history a = false → executed drv history a = a := by
  induction a with
  | nil => intro history _; rfl
  | cons c rest ih =>
    intro history h
    simp only [checksFail, Bool.or_eq_false_iff] at h
    simp [executed, h.1, ih _ h.2]

/-- One shader block issues its steps up to the first failing check, and runs to
its end exactly when no check fails. -/
theorem compileStage_exec (drv : GLDriver) (shaderType : GLenum) (source : String)
    (glProgramID : GLuint) (w : World) :
    compileStage drv shaderType source glProgramID w
      = (drv.createShader w.glTrace shaderType,
         !checksFail drv w.glTrace
            (shaderSteps shaderType source glProgramID
              (drv.createShader w.glTrace shaderType)),
         { w with glTrace := w.glTrace ++ (executed drv w.glTrace
            (shaderSteps shaderType source glProgramID
              (drv.createShader w.glTrace shaderType))) }) := by
  unfold compileStage
  simp only [glCreateShader, glGetError, glGetShaderiv, glCall]
  split_ifs with h1 h2 h3 h4 h5 <;>
    simp_all [shaderSteps, checksFail, checkFails, executed]

theorem shaderBlock_exec (drv : GLDriver) (shaderType : GLenum) (source : Option String)
    (glProgramID : GLuint) (w : World) :
    shaderBlock drv shaderType source glProgramID w
      = ((match source with
          | none => 0
          | some _ => drv.createShader w.glTrace shaderType),
         !checksFail drv w.glTrace
            (blockSteps shaderType source glProgramID
              (drv.createShader w.glTrace shaderType)),
         { w with glTrace := w.glTrace ++ (executed drv w.glTrace
            (blockSteps shaderType source glProgramID
              (drv.createShader w.glTrace shaderType))) }) := by
  cases source with
  | none => simp [shaderBlock, blockSteps, checksFail, executed]
  | some src => simp only [shaderBlock, blockSteps, compileStage_exec]

theorem deletionsOf_executed_block (drv : GLDriver) (shaderType : GLenum)
    (source : Option String) (program : GLuint) (history : List GLCall) (p : List GLuint) :
    deletionsOf (createdShaders drv history (executed drv history
        (blockSteps shaderType source program (drv.createShader history shaderType)))) p
      = deletionsOf [match source with
          | none => 0
          | some _ => drv.createShader history shaderType] p := by
  cases source with
  | none => simp [blockSteps, executed, createdShaders, deletionsOf_zero_cons]
  | some src =>
    simp only [blockSteps, shaderSteps, executed, checkFails]
    split_ifs <;> simp [createdShaders]

theorem deletionsOf_full_block (drv : GLDriver) (shaderType : GLenum)
    (source : Option String) (program : GLuint) (history : List GLCall) (p : List GLuint) :
    deletionsOf (createdShaders drv history
        (blockSteps shaderType source program (drv.createShader history shaderType))) p
      = deletionsOf [match source with
          | none => 0
          | some _ => drv.createShader history shaderType] p := by
  cases source with
  | none => simp [blockSteps, createdShaders, deletionsOf_zero_cons]
  | some src => simp [blockSteps, shaderSteps, createdShaders]

theorem deletionsOf_append (a b p : List GLuint) :
    deletionsOf (a ++ b) p = deletionsOf a [] ++ deletionsOf b p := by
  simp [deletionsOf]

theorem deletionsOf_pair (a b : GLuint) (p : List GLuint) :
    deletionsOf [a, b] p = deletionsOf [a] [] ++ deletionsOf [b] p :=
  deletionsOf_append [a] [b] p

/-- PL_Shaders_CompileDefinition walks the planned steps up to the first failing
check: it then cleans up and returns -1; when no check fails it goes on to lines
149-186. -/
theorem compile_exec (drv : GLDriver) (definition : PLGLShaderDefinition) (w : World) :
    PL_Shaders_CompileDefinition drv definition w
      = if checksFail drv (w.glTrace ++ [GLCall.glGetError])
            (plannedCalls drv (w.glTrace ++ [GLCall.glGetError]) definition) = true then
          (-1, { w with glTrace :=
            (w.glTrace ++ GLCall.glGetError :: executed drv (w.glTrace ++ [GLCall.glGetError])
              (plannedCalls drv (w.glTrace ++ [GLCall.glGetError]) definition)) ++
            (deletionsOf
              (createdShaders drv (w.glTrace ++ [GLCall.glGetError])
                (executed drv (w.glTrace ++ [GLCall.glGetError])
                  (plannedCalls drv (w.glTrace ++ [GLCall.glGetError]) definition)))
              [drv.createProgram (w.glTrace ++ [GLCall.glGetError])]) })
        else
          compileFinish drv definition (drv.createProgram (w.glTrace ++ [GLCall.glGetError]))
            { w with glTrace := w.glTrace ++ GLCall.glGetError ::
                (plannedCalls drv (w.glTrace ++ [GLCall.glGetError]) definition) } := by
  unfold PL_Shaders_CompileDefinition
  simp only [glGetError, glCreateProgram, glCall, shaderBlock_exec, compileCleanup_spec]
  simp only [plannedCalls, List.append_assoc, List.singleton_append, List.cons_append,
    List.nil_append]
  by_cases he : drv.getError (w.glTrace ++ [GLCall.glGetError, GLCall.glCreateProgram])
      = GL_NO_ERROR
  · by_cases hv : checksFail drv
        (w.glTrace ++ [GLCall.glGetError, GLCall.glCreateProgram, GLCall.glGetError])
        (blockSteps GL_VERTEX_SHADER definition.vertexShader
          (drv.createProgram (w.glTrace ++ [GLCall.glGetError]))
          (drv.createShader
            (w.glTrace ++ [GLCall.glGetError, GLCall.glCreateProgram, GLCall.glGetError])
            GL_VERTEX_SHADER)) = true
    · simp [checksFail, checkFails, executed, checksFail_append, executed_append,
        createdShaders, createdShaders_append, he, hv, deletionsOf_cons_zero,
        deletionsOf_executed_block]
    · by_cases hf : checksFail drv
          (w.glTrace ++ GLCall.glGetError :: GLCall.glCreateProgram :: GLCall.glGetError ::
            blockSteps GL_VERTEX_SHADER definition.vertexShader
              (drv.createProgram (w.glTrace ++ [GLCall.glGetError]))
              (drv.createShader
                (w.glTrace ++ [GLCall.glGetError, GLCall.glCreateProgram, GLCall.glGetError])
                GL_VERTEX_SHADER))
          (blockSteps GL_FRAGMENT_SHADER definition.fragmentShader
            (drv.createProgram (w.glTrace ++ [GLCall.glGetError]))
            (drv.createShader
              (w.glTrace ++ GLCall.glGetError :: GLCall.glCreateProgram :: GLCall.glGetError ::
                blockSteps GL_VERTEX_SHADER definition.vertexShader
                  (drv.createProgram (w.glTrace ++ [GLCall.glGetError]))
                  (drv.createShader
                    (w.glTrace ++
                      [GLCall.glGetError, GLCall.glCreateProgram, GLCall.glGetError])
                    GL_VERTEX_SHADER))
              GL_FRAGMENT_SHADER)) = true
      · simp only [Bool.not_eq_true] at hv
        simp [checksFail, checkFails, executed, checksFail_append, executed_append,
          createdShaders, createdShaders_append, he, hv, hf, executed_of_pass]
        rw [deletionsOf_pair, deletionsOf_append, deletionsOf_full_block,
          deletionsOf_executed_block]
      · simp only [Bool.not_eq_true] at hv hf
        simp [checksFail, checkFails, executed, checksFail_append, executed_append,
          createdShaders, createdShaders_append, he, hv, hf, executed_of_pass]
  · simp [checksFail, checkFails, executed, createdShaders, he, deletionsOf_zero_cons]

/-! ## Failure of PL_Shaders_CompileDefinition -/

/-- What a run of PL_Shaders_CompileDefinition shows in its own trace: it starts
with the clearing poll, returns -1 exactly when a check it issued failed, and on
failure leaves the handle table alone and deletes the non-zero ids it created. -/
theorem compile_failure_observed (drv : GLDriver) (definition : PLGLShaderDefinition)
    (w : World) :
    (PL_Shaders_CompileDefinition drv definition w).2.glTrace
        = w.glTrace ++ callsSince w (PL_Shaders_CompileDefinition drv definition w).2 ∧
    (callsSince w (PL_Shaders_CompileDefinition drv definition w).2).head?
        = some GLCall.glGetError ∧
    ((PL_Shaders_CompileDefinition drv definition w).1 = -1 ↔
      checksFail drv (w.glTrace ++ [GLCall.glGetError])
        (callsSince w (PL_Shaders_CompileDefinition drv definition w).2).tail = true) ∧
    ((PL_Shaders_CompileDefinition drv definition w).1 = -1 →
      (PL_Shaders_CompileDefinition drv definition w).2.handles = w.handles ∧
      (callsSince w (PL_Shaders_CompileDefinition drv definition w).2).filter isDeletion
        = deletionsOf
            (createdShaders drv w.glTrace
              (callsSince w (PL_Shaders_CompileDefinition drv definition w).2))
            (createdPrograms drv w.glTrace
              (callsSince w (PL_Shaders_CompileDefinition drv definition w).2))) ∧
    (definition.vertexShader = none → definition.fragmentShader = none →
      drv.getError (w.glTrace ++ [GLCall.glGetError, GLCall.glCreateProgram]) = GL_NO_ERROR →
      (PL_Shaders_CompileDefinition drv definition w).1 ≠ -1) := by
  obtain ⟨calls, hprog, hdel, hlink, hq, hnone, hcase⟩ := compile_paths drv definition w
  have hdf := deletionsOf_filter
    (createdShaders drv (w.glTrace ++ [GLCall.glGetError]) calls)
    [drv.createProgram (w.glTrace ++ [GLCall.glGetError])]
  have hqf := locationQueries_filter
    (drv.createProgram (w.glTrace ++ [GLCall.glGetError])) definition
  rcases hcase with ⟨hfail, heq⟩ | ⟨hok, heq⟩
  · have hs : callsSince w (PL_Shaders_CompileDefinition drv definition w).2
        = GLCall.glGetError :: calls ++
            deletionsOf (createdShaders drv (w.glTrace ++ [GLCall.glGetError]) calls)
              [drv.createProgram (w.glTrace ++ [GLCall.glGetError])] :=
      callsSince_append _ _ _ (by rw [heq]; simp)
    rw [hs]
    refine ⟨by rw [heq]; simp, rfl, ?_, ?_, ?_⟩
    · simp [heq, checksFail_append, hfail]
    · intro _
      refine ⟨by rw [heq], ?_⟩
      rw [show GLCall.glGetError :: calls ++ deletionsOf
              (createdShaders drv (w.glTrace ++ [GLCall.glGetError]) calls)
              [drv.createProgram (w.glTrace ++ [GLCall.glGetError])]
            = [GLCall.glGetError] ++ (calls ++ deletionsOf
              (createdShaders drv (w.glTrace ++ [GLCall.glGetError]) calls)
              [drv.createProgram (w.glTrace ++ [GLCall.glGetError])]) by simp]
      rw [createdShaders_append, createdPrograms_append, createdShaders_append,
        createdPrograms_append, List.filter_append, List.filter_append,
        createdShaders_of_no_creation drv _ _ hdf.2.2.1,
        createdPrograms_of_no_creation drv _ _ hdf.2.2.1, hprog, hdel, hdf.1]
      simp [createdShaders, createdPrograms, isDeletion]
    · intro hv hf he
      have hc := hnone hv hf
      subst hc
      simp [checksFail, checkFails, he] at hfail
  · rw [compileFinish_spec] at heq
    have hs : callsSince w (PL_Shaders_CompileDefinition drv definition w).2
        = GLCall.glGetError :: calls ++
            locationQueries (drv.createProgram (w.glTrace ++ [GLCall.glGetError])) definition :=
      callsSince_append _ _ _ (by rw [heq]; simp)
    have hne : (PL_Shaders_CompileDefinition drv definition w).1 ≠ -1 := by
      rw [heq]; simp
    rw [hs]
    refine ⟨by rw [heq]; simp, rfl, ?_, fun h => absurd h hne, fun _ _ _ => hne⟩
    simp [hne, checksFail_append, hok, checksFail_of_no_check drv _ _ hqf.2.1]

/-- C9: PL_Shaders_CompileDefinition fails atomically.  After the poll that clears
the error flag the run walks the planned steps: glCreateProgram, then for a
supplied vertex shader and then for a supplied fragment shader the steps create,
source, compile and attach, each followed by a poll of the error flag, with the
compile status queried before the attach.  It stops right after the first check
that fails (a poll that reports an error, or a compile status other than GL_TRUE)
and returns -1 if and only if some check of the plan fails.  When it returns -1
the calls that follow are exactly one deletion for every shader and program id
created so far that is not 0, and the handle table is untouched (no handle
acquired, no record written); otherwise the location queries follow.  A
definition with neither source has the plan glCreateProgram, poll, and succeeds
whenever that poll reports no error. -/
theorem compile_fails_atomically (drv : GLDriver) (definition : PLGLShaderDefinition)
    (w : World) :
    callsSince w (PL_Shaders_CompileDefinition drv definition w).2
      = GLCall.glGetError ::
          executed drv (w.glTrace ++ [GLCall.glGetError])
            (plannedCalls drv (w.glTrace ++ [GLCall.glGetError]) definition) ++
          (if (PL_Shaders_CompileDefinition drv definition w).1 = -1 then
            deletionsOf
              (createdShaders drv (w.glTrace ++ [GLCall.glGetError])
                (executed drv (w.glTrace ++ [GLCall.glGetError])
                  (plannedCalls drv (w.glTrace ++ [GLCall.glGetError]) definition)))
              [drv.createProgram (w.glTrace ++ [GLCall.glGetError])]
           else
            locationQueries (drv.createProgram (w.glTrace ++ [GLCall.glGetError]))
              definition) ∧
    ((PL_Shaders_CompileDefinition drv definition w).1 = -1 ↔
      checksFail drv (w.glTrace ++ [GLCall.glGetError])
        (plannedCalls drv (w.glTrace ++ [GLCall.glGetError]) definition) = true) ∧
    (definition.vertexShader = none → definition.fragmentShader = none →
      plannedCalls drv (w.glTrace ++ [GLCall.glGetError]) definition
        = [GLCall.glCreateProgram, GLCall.glGetError]) ∧
    (∀ vsrc fsrc, definition.vertexShader = some vsrc →
      definition.fragmentShader = some fsrc →
      ∃ vid fid,
        plannedCalls drv (w.glTrace ++ [GLCall.glGetError]) definition
          = [GLCall.glCreateProgram, GLCall.glGetError,
             GLCall.glCreateShader GL_VERTEX_SHADER, GLCall.glGetError,
             GLCall.glShaderSource vid vsrc, GLCall.glGetError,
             GLCall.glCompileShader vid, GLCall.glGetError,
             GLCall.glGetShaderiv vid GL_COMPILE_STATUS,
             GLCall.glAttachShader (drv.createProgram (w.glTrace ++ [GLCall.glGetError])) vid,
             GLCall.glGetError,
             GLCall.glCreateShader GL_FRAGMENT_SHADER, GLCall.glGetError,
             GLCall.glShaderSource fid fsrc, GLCall.glGetError,
             GLCall.glCompileShader fid, GLCall.glGetError,
             GLCall.glGetShaderiv fid GL_COMPILE_STATUS,
             GLCall.glAttachShader (drv.createProgram (w.glTrace ++ [GLCall.glGetError])) fid,
             GLCall.glGetError]) ∧
    (PL_Shaders_CompileDefinition drv definition w).2.glTrace
        = w.glTrace ++ callsSince w (PL_Shaders_CompileDefinition drv definition w).2 ∧
    (callsSince w (PL_Shaders_CompileDefinition drv definition w).2).head?
        = some GLCall.glGetError ∧
    ((PL_Shaders_CompileDefinition drv definition w).1 = -1 ↔
      checksFail drv (w.glTrace ++ [GLCall.glGetError])
        (callsSince w (PL_Shaders_CompileDefinition drv definition w).2).tail = true) ∧
    ((PL_Shaders_CompileDefinition drv definition w).1 = -1 →
      (PL_Shaders_CompileDefinition drv definition w).2.handles = w.handles ∧
      (callsSince w (PL_Shaders_CompileDefinition drv definition w).2).filter isDeletion
        = deletionsOf
            (createdShaders drv w.glTrace
              (callsSince w (PL_Shaders_CompileDefinition drv definition w).2))
            (createdPrograms drv w.glTrace
              (callsSince w (PL_Shaders_CompileDefinition drv definition w).2))) ∧
    (definition.vertexShader = none → definition.fragmentShader = none →
      drv.getError (w.glTrace ++ [GLCall.glGetError, GLCall.glCreateProgram]) = GL_NO_ERROR →
      (PL_Shaders_CompileDefinition drv definition w).1 ≠ -1) := by
  have hx := compile_exec drv definition w
  refine ⟨?_, ?_, ?_, ?_, compile_failure_observed drv definition w⟩
  · by_cases hfail : checksFail drv (w.glTrace ++ [GLCall.glGetError])
        (plannedCalls drv (w.glTrace ++ [GLCall.glGetError]) definition) = true
    · rw [if_pos hfail] at hx
      apply callsSince_append
      rw [hx]
      simp
    · rw [if_neg hfail, compileFinish_spec] at hx
      apply callsSince_append
      rw [hx]
      simp [executed_of_pass drv _ _ (Bool.not_eq_true _ ▸ hfail)]
  · by_cases hfail : checksFail drv (w.glTrace ++ [GLCall.glGetError])
        (plannedCalls drv (w.glTrace ++ [GLCall.glGetError]) definition) = true
    · rw [if_pos hfail] at hx
      rw [hx]
      simp [hfail]
    · rw [if_neg hfail, compileFinish_spec] at hx
      rw [hx]
      simp [hfail]
  · intro hv hf
    simp [plannedCalls, blockSteps, hv, hf]
  · intro vsrc fsrc hv hf
    exact ⟨_, _, by simp [plannedCalls, blockSteps, shaderSteps, hv, hf]; exact ⟨rfl, rfl⟩⟩

/-! ## Success of PL_Shaders_CompileDefinition -/

/-- What a successful run leaves behind: the calls before the location queries,
the queries, and the record of lines 149-186 under the returned handle. -/
theorem compile_success (drv : GLDriver) (definition : PLGLShaderDefinition) (w : World)
    (h : (PL_Shaders_CompileDefinition drv definition w).1 ≠ -1) :
    ∃ calls,
      calls.filter isLink = [] ∧ calls.filter isLocationQuery = [] ∧
      calls.filter isDeletion = [] ∧
      PL_Shaders_CompileDefinition drv definition w
        = ((w.handles.nextID : Int),
           { glTrace := (w.glTrace ++ GLCall.glGetError :: calls) ++
               locationQueries (drv.createProgram (w.glTrace ++ [GLCall.glGetError])) definition,
             handles :=
               { entries := ((w.handles.nextID : Int),
                             recordOf drv (w.glTrace ++ GLCall.glGetError :: calls)
                               (drv.createProgram (w.glTrace ++ [GLCall.glGetError])) definition)
                            :: w.handles.entries,
                 nextID := w.handles.nextID + 1,
                 log := w.handles.log ++
                   [HandleCall.acquireID, HandleCall.allocateData (w.handles.nextID : Int)] },
             s_stockShaderIDs := w.s_stockShaderIDs }) := by
  obtain ⟨calls, _, hdel, hlink, hq, _, hcase⟩ := compile_paths drv definition w
  rcases hcase with ⟨_, heq⟩ | ⟨_, heq⟩
  · rw [heq] at h
    exact absurd rfl h
  · rw [compileFinish_spec] at heq
    exact ⟨calls, hlink, hq, hdel, heq⟩

/-- C8: location resolution follows the definition's counts.  After a successful
run the location queries issued are position, then the uniforms of the texture
slots k < textureCount, then the attributes of the texcoord slots
k < texcoordCount, then color when hasColor is non-zero, as the last calls of the
run; in the record under the returned handle the position location is the answer
to the position query, texture slot k and texcoord slot k hold the answer to their
query (named "texture", "texture1", "texture2", "texture3" and "texcoord",
"texcoord2", "texcoord3", "texcoord4") when queried and 0 otherwise, the color
location holds the answer to the color query when hasColor is non-zero and 0
otherwise, each answer stored as a GLuint and given by the driver after the calls
that precede the query; the two source pointers of the stored definition are
cleared. -/
theorem compile_resolves_locations (drv : GLDriver) (definition : PLGLShaderDefinition)
    (w : World) (h : (PL_Shaders_CompileDefinition drv definition w).1 ≠ -1) :
    ∃ before info,
      (PL_Shaders_CompileDefinition drv definition w).2.glTrace
        = w.glTrace ++ before ++
            locationQueries (drv.createProgram (w.glTrace ++ [GLCall.glGetError])) definition ∧
      before.filter isLocationQuery = [] ∧
      lookupHandle (PL_Shaders_CompileDefinition drv definition w).1
        (PL_Shaders_CompileDefinition drv definition w).2.handles.entries = some info ∧
      info.definition.vertexShader = none ∧ info.definition.fragmentShader = none ∧
      info.glVertexAttribID
        = toGLuint (drv.getAttribLocation (w.glTrace ++ before)
            (drv.createProgram (w.glTrace ++ [GLCall.glGetError])) "position") ∧
      (∀ k : SlotIndex, info.glTextureUniformID.get k
        = if (k.toNat : Int) < definition.textureCount then
            toGLuint (drv.getUniformLocation
              (w.glTrace ++ before ++
                [GLCall.glGetAttribLocation
                  (drv.createProgram (w.glTrace ++ [GLCall.glGetError])) "position"] ++
                textureQueries (drv.createProgram (w.glTrace ++ [GLCall.glGetError]))
                  (k.toNat : Int))
              (drv.createProgram (w.glTrace ++ [GLCall.glGetError])) (textureUniformName k))
          else 0) ∧
      (∀ k : SlotIndex, info.glTexcoordAttribID.get k
        = if (k.toNat : Int) < definition.texcoordCount then
            toGLuint (drv.getAttribLocation
              (w.glTrace ++ before ++
                [GLCall.glGetAttribLocation
                  (drv.createProgram (w.glTrace ++ [GLCall.glGetError])) "position"] ++
                textureQueries (drv.createProgram (w.glTrace ++ [GLCall.glGetError]))
                  definition.textureCount ++
                texcoordQueries (drv.createProgram (w.glTrace ++ [GLCall.glGetError]))
                  (k.toNat : Int))
              (drv.createProgram (w.glTrace ++ [GLCall.glGetError])) (texcoordAttribName k))
          else 0) ∧
      info.glColorAttribID
        = (if definition.hasColor ≠ 0 then
            toGLuint (drv.getAttribLocation
              (w.glTrace ++ before ++
                [GLCall.glGetAttribLocation
                  (drv.createProgram (w.glTrace ++ [GLCall.glGetError])) "position"] ++
                textureQueries (drv.createProgram (w.glTrace ++ [GLCall.glGetError]))
                  definition.textureCount ++
                texcoordQueries (drv.createProgram (w.glTrace ++ [GLCall.glGetError]))
                  definition.texcoordCount)
              (drv.createProgram (w.glTrace ++ [GLCall.glGetError])) "color")
          else 0) := by
  obtain ⟨calls, _, hq, _, heq⟩ := compile_success drv definition w h
  refine ⟨GLCall.glGetError :: calls,
    recordOf drv (w.glTrace ++ GLCall.glGetError :: calls)
      (drv.createProgram (w.glTrace ++ [GLCall.glGetError])) definition,
    ?_, ?_, ?_, rfl, rfl, ?_, ?_, ?_, ?_⟩
  · rw [heq]
  · simpa [isLocationQuery] using hq
  · rw [heq]; simp [lookupHandle]
  · simp [recordOf]
  · intro k
    cases k <;> simp [recordOf, Slots4.get, textureSlot]
  · intro k
    cases k <;> simp [recordOf, Slots4.get, texcoordSlot]
  · simp [recordOf]

/-- The stock single-textured definition under the well-behaved driver compiles
to the handle 1, and its record is as C8 states. -/
theorem compile_resolves_locations_witness :
    (PL_Shaders_CompileDefinition goodDriver
        (s_stockShaderDefinitions .PLGL_SHADER_BASIC_TEX1) initialWorld).1 ≠ -1 ∧
    ∃ before info,
      (PL_Shaders_CompileDefinition goodDriver
          (s_stockShaderDefinitions .PLGL_SHADER_BASIC_TEX1) initialWorld).2.glTrace
        = initialWorld.glTrace ++ before ++
            locationQueries (goodDriver.createProgram (initialWorld.glTrace ++ [GLCall.glGetError]))
              (s_stockShaderDefinitions .PLGL_SHADER_BASIC_TEX1) ∧
      before.filter isLocationQuery = [] ∧
      lookupHandle (PL_Shaders_CompileDefinition goodDriver
          (s_stockShaderDefinitions .PLGL_SHADER_BASIC_TEX1) initialWorld).1
        (PL_Shaders_CompileDefinition goodDriver
          (s_stockShaderDefinitions .PLGL_SHADER_BASIC_TEX1) initialWorld).2.handles.entries
        = some info :=
  ⟨by decide,
   let ⟨before, info, h1, h2, h3, _⟩ :=
     compile_resolves_locations goodDriver (s_stockShaderDefinitions .PLGL_SHADER_BASIC_TEX1)
       initialWorld (by decide)
   ⟨before, info, h1, h2, h3⟩⟩

/-- C1: no run of PL_Shaders_CompileDefinition links the program it creates.  For
every driver, definition and state the calls of the run contain no glLinkProgram;
for the stock untextured definition under a well-behaved driver the run returns
the handle 1 after creating program 1, attaching the shaders 2 and 3 to it and
querying its attribute locations, with no link in between. -/
theorem compile_never_links :
    (∀ (drv : GLDriver) (definition : PLGLShaderDefinition) (w : World),
      (callsSince w (PL_Shaders_CompileDefinition drv definition w).2).filter isLink = []) ∧
    (PL_Shaders_CompileDefinition goodDriver
      (s_stockShaderDefinitions .PLGL_SHADER_BASIC_NOTEX) initialWorld).1 = 1 ∧
    (PL_Shaders_CompileDefinition goodDriver
      (s_stockShaderDefinitions .PLGL_SHADER_BASIC_NOTEX) initialWorld).2.glTrace
      = [GLCall.glGetError, GLCall.glCreateProgram, GLCall.glGetError,
         GLCall.glCreateShader GL_VERTEX_SHADER, GLCall.glGetError,
         GLCall.glShaderSource 2 stockNoTexVertexSource, GLCall.glGetError,
         GLCall.glCompileShader 2, GLCall.glGetError,
         GLCall.glGetShaderiv 2 GL_COMPILE_STATUS,
         GLCall.glAttachShader 1 2, GLCall.glGetError,
         GLCall.glCreateShader GL_FRAGMENT_SHADER, GLCall.glGetError,
         GLCall.glShaderSource 3 stockNoTexFragmentSource, GLCall.glGetError,
         GLCall.glCompileShader 3, GLCall.glGetError,
         GLCall.glGetShaderiv 3 GL_COMPILE_STATUS,
         GLCall.glAttachShader 1 3, GLCall.glGetError,
         GLCall.glGetAttribLocation 1 "position",
         GLCall.glGetAttribLocation 1 "color"] := by
  refine ⟨?_, by decide, by rfl⟩
  intro drv definition w
  obtain ⟨calls, _, _, hlink, _, _, hcase⟩ := compile_paths drv definition w
  rcases hcase with ⟨_, heq⟩ | ⟨_, heq⟩
  · rw [callsSince_append _ _ (GLCall.glGetError :: calls ++ deletionsOf
        (createdShaders drv (w.glTrace ++ [GLCall.glGetError]) calls)
        [drv.createProgram (w.glTrace ++ [GLCall.glGetError])]) (by rw [heq]; simp)]
    simp [List.filter_append, List.filter_cons, isLink, hlink, (deletionsOf_filter _ _).2.2.2.1]
  · rw [compileFinish_spec] at heq
    rw [callsSince_append _ _ (GLCall.glGetError :: calls ++ locationQueries
        (drv.createProgram (w.glTrace ++ [GLCall.glGetError])) definition)
        (by rw [heq]; simp)]
    simp [List.filter_append, List.filter_cons, isLink, hlink,
      (locationQueries_filter _ _).2.2.2.1]

/-- C2: the record stored by a successful PL_Shaders_CompileDefinition does not
hold the GL object ids of the run.  For every driver, definition and state a run
that returns a handle stores a record whose glProgramID, glVertexShaderID and
glFragmentShaderID are 0, next to the copied textureCount, texcoordCount and
hasColor; for the stock untextured definition under a well-behaved driver the run
creates program 1 and the shaders 2 and 3, and the record holds 0, 0, 0. -/
theorem compile_record_ids_zero :
    (∀ (drv : GLDriver) (definition : PLGLShaderDefinition) (w : World),
      (PL_Shaders_CompileDefinition drv definition w).1 ≠ -1 →
      ∃ info,
        lookupHandle (PL_Shaders_CompileDefinition drv definition w).1
          (PL_Shaders_CompileDefinition drv definition w).2.handles.entries = some info ∧
        info.glProgramID = 0 ∧ info.glVertexShaderID = 0 ∧ info.glFragmentShaderID = 0 ∧
        info.definition.textureCount = definition.textureCount ∧
        info.definition.texcoordCount = definition.texcoordCount ∧
        info.definition.hasColor = definition.hasColor) ∧
    createdPrograms goodDriver []
      (PL_Shaders_CompileDefinition goodDriver
        (s_stockShaderDefinitions .PLGL_SHADER_BASIC_NOTEX) initialWorld).2.glTrace = [1] ∧
    createdShaders goodDriver []
      (PL_Shaders_CompileDefinition goodDriver
        (s_stockShaderDefinitions .PLGL_SHADER_BASIC_NOTEX) initialWorld).2.glTrace = [2, 3] ∧
    (lookupHandle 1
      (PL_Shaders_CompileDefinition goodDriver
        (s_stockShaderDefinitions .PLGL_SHADER_BASIC_NOTEX)
        initialWorld).2.handles.entries).map
      (fun info => (info.glProgramID, info.glVertexShaderID, info.glFragmentShaderID))
      = some (0, 0, 0) := by
  refine ⟨?_, by decide, by decide, by decide⟩
  intro drv definition w h
  obtain ⟨calls, _, _, _, heq⟩ := compile_success drv definition w h
  refine ⟨recordOf drv (w.glTrace ++ GLCall.glGetError :: calls)
    (drv.createProgram (w.glTrace ++ [GLCall.glGetError])) definition, ?_, ?_⟩
  · rw [heq]; simp [lookupHandle]
  · simp [recordOf]

theorem lookupHandle_released (handle : Int) (l : List (Int × PLGLShaderInfo)) :
    lookupHandle handle (l.filter (fun p => decide (p.1 ≠ handle))) = none := by
  induction l with
  | nil => rfl
  | cons p rest ih =>
    by_cases hp : p.1 = handle
    · simp only [List.filter_cons, hp, ne_eq, not_true_eq_false, decide_False]
      simpa using ih
    · simp only [List.filter_cons, hp, ne_eq, not_false_eq_true, decide_True, if_true,
        lookupHandle, if_false]
      simpa using ih

/-- C3: PL_Shaders_DeleteShader after a successful PL_Shaders_CompileDefinition
deletes none of the GL objects the compile created.  For every driver, definition
and state, deleting the returned handle issues the single call glDeleteProgram(0)
and releases the handle; for the stock untextured definition under a well-behaved
driver the program 1 and the shaders 2 and 3 are created and the only deletion in
the whole trace is glDeleteProgram(0). -/
theorem delete_after_compile_leaks :
    (∀ (drv : GLDriver) (definition : PLGLShaderDefinition) (w : World),
      (PL_Shaders_CompileDefinition drv definition w).1 ≠ -1 →
      callsSince (PL_Shaders_CompileDefinition drv definition w).2
          (PL_Shaders_DeleteShader (PL_Shaders_CompileDefinition drv definition w).1
            (PL_Shaders_CompileDefinition drv definition w).2)
        = [GLCall.glDeleteProgram 0] ∧
      lookupHandle (PL_Shaders_CompileDefinition drv definition w).1
          (PL_Shaders_DeleteShader (PL_Shaders_CompileDefinition drv definition w).1
            (PL_Shaders_CompileDefinition drv definition w).2).handles.entries = none) ∧
    createdPrograms goodDriver []
      (PL_Shaders_DeleteShader 1 (PL_Shaders_CompileDefinition goodDriver
        (s_stockShaderDefinitions .PLGL_SHADER_BASIC_NOTEX) initialWorld).2).glTrace = [1] ∧
    createdShaders goodDriver []
      (PL_Shaders_DeleteShader 1 (PL_Shaders_CompileDefinition goodDriver
        (s_stockShaderDefinitions .PLGL_SHADER_BASIC_NOTEX) initialWorld).2).glTrace = [2, 3] ∧
    (PL_Shaders_DeleteShader 1 (PL_Shaders_CompileDefinition goodDriver
        (s_stockShaderDefinitions .PLGL_SHADER_BASIC_NOTEX) initialWorld).2).glTrace.filter
      isDeletion = [GLCall.glDeleteProgram 0] ∧
    lookupHandle 1
      (PL_Shaders_DeleteShader 1 (PL_Shaders_CompileDefinition goodDriver
        (s_stockShaderDefinitions .PLGL_SHADER_BASIC_NOTEX)
        initialWorld).2).handles.entries = none := by
  refine ⟨?_, by decide, by decide, by decide, by decide⟩
  intro drv definition w h
  obtain ⟨calls, _, _, _, heq⟩ := compile_success drv definition w h
  rw [heq]
  constructor
  · simp [PL_Shaders_DeleteShader, PL_Handle_GetData, PL_Handle_ReleaseID, lookupHandle,
      recordOf, glCall, callsSince]
  · have hr := lookupHandle_released (w.handles.nextID : Int) w.handles.entries
    simp only [ne_eq, decide_not] at hr
    simp [PL_Shaders_DeleteShader, PL_Handle_GetData, PL_Handle_ReleaseID, lookupHandle,
      recordOf, glCall, hr]

/-! ## PL_Shaders_ApplyProgram and PL_Shaders_ClearProgram -/

theorem toGLuint_lt (x : Int) : toGLuint x < 2 ^ 32 := by
  unfold toGLuint
  have h1 := Int.emod_lt_of_pos x (by norm_num : (0:Int) < 2 ^ 32)
  have h2 := Int.emod_nonneg x (by norm_num : (2:Int) ^ 32 ≠ 0)
  norm_num at h1 h2 ⊢
  omega

theorem toGLuint_toGLint (s : Nat) (h : s < 2 ^ 32) : toGLuint (toGLint s) = s := by
  unfold toGLuint toGLint
  rw [Nat.mod_eq_of_lt h]
  norm_num at h ⊢
  split_ifs <;> omega

theorem toGLint_eq_zero (s : Nat) (h : s < 2 ^ 32) : toGLint s = 0 ↔ s = 0 := by
  unfold toGLint
  rw [Nat.mod_eq_of_lt h]
  norm_num at h ⊢
  split_ifs <;> omega

theorem enabledIndices_append (a b : List GLCall) :
    enabledIndices (a ++ b) = enabledIndices a ++ enabledIndices b := by
  induction a with
  | nil => rfl
  | cons c rest ih => cases c <;> simp [enabledIndices, ih]

theorem disabledIndices_append (a b : List GLCall) :
    disabledIndices (a ++ b) = disabledIndices a ++ disabledIndices b := by
  induction a with
  | nil => rfl
  | cons c rest ih => cases c <;> simp [disabledIndices, ih]

theorem disabledIndices_map (ds : List GLuint) :
    disabledIndices (ds.map GLCall.glDisableVertexAttribArray) = ds := by
  induction ds with
  | nil => rfl
  | cons d rest ih => simp [disabledIndices, ih]

/-- The texture loop, when it stays inside the four slots, only adds glUniform1i
calls, one per index visited. -/
theorem applyTextureLoop_some (info : PLGLShaderInfo) (l : List Nat) :
    ∀ w w1, applyTextureLoop info l w = some w1 →
      ∃ us, w1 = { w with glTrace := w.glTrace ++ us } ∧
        l.map (fun i => (info.glTextureUniformID.get? i).map
                 (fun loc => GLCall.glUniform1i (toGLint loc) (i : Int))) = us.map some ∧
        us.filter isUniform1i = us ∧ enabledIndices us = [] := by
  induction l with
  | nil =>
    intro w w1 h
    simp only [applyTextureLoop, Option.some.injEq] at h
    subst h
    exact ⟨[], by simp, rfl, rfl, rfl⟩
  | cons i rest ih =>
    intro w w1 h
    simp only [applyTextureLoop] at h
    cases hg : info.glTextureUniformID.get? i with
    | none => simp [hg] at h
    | some loc =>
      simp only [hg] at h
      obtain ⟨us, h1, h2, h3, h4⟩ := ih _ _ h
      refine ⟨GLCall.glUniform1i (toGLint loc) (i : Int) :: us, ?_, ?_, ?_, ?_⟩
      · simp [h1, glCall]
      · simp [hg, h2]
      · simp [List.filter_cons, isUniform1i, h3]
      · simp [enabledIndices, h4]

theorem applyTextureLoop_defined (info : PLGLShaderInfo) (l : List Nat)
    (hl : ∀ i ∈ l, i < 4) : ∀ w, ∃ w1, applyTextureLoop info l w = some w1 := by
  induction l with
  | nil => intro w; exact ⟨w, rfl⟩
  | cons i rest ih =>
    intro w
    have hi : i < 4 := hl i (by simp)
    have hr : ∀ j ∈ rest, j < 4 := fun j hj => hl j (by simp [hj])
    simp only [applyTextureLoop]
    have h4 : i = 0 ∨ i = 1 ∨ i = 2 ∨ i = 3 := by omega
    rcases h4 with h | h | h | h <;> subst h <;> simp only [Slots4.get?] <;> exact ih hr _

theorem applyElement_eq (info : PLGLShaderInfo) (vertexData vertexDataSize : Int)
    (e : VertexElement) (w : World) :
    applyElement info vertexData vertexDataSize e w
      = { w with glTrace := w.glTrace ++
            (match touchedLocation info e.vertexType with
             | none => []
             | some loc =>
               [GLCall.glEnableVertexAttribArray loc,
                GLCall.glVertexAttribPointer loc e.size
                  (VertexElementSizeToGL e.vertexElementSize) GL_FALSE vertexDataSize
                  (vertexData + e.offset)]) } := by
  rcases ht : e.vertexType with _ | _ | _ | _ | _ | _ | _
  all_goals
    simp only [applyElement, ht, touchedLocation, texcoordIndex, glCall]
  all_goals
    try split_ifs
  all_goals simp

theorem clearElement_eq (info : PLGLShaderInfo) (e : VertexElement) (w : World) :
    clearElement info e w
      = { w with glTrace := w.glTrace ++
            (match touchedLocation info e.vertexType with
             | none => []
             | some loc => [GLCall.glDisableVertexAttribArray loc]) } := by
  rcases ht : e.vertexType with _ | _ | _ | _ | _ | _ | _
  all_goals
    simp only [clearElement, ht, touchedLocation, texcoordIndex, glCall]
  all_goals
    try split_ifs
  all_goals simp

/-- The element loop of ApplyProgram issues, element by element, the calls on the
location the switch selects. -/
theorem applyElements_eq (info : PLGLShaderInfo) (vertexData vertexDataSize : Int)
    (es : List VertexElement) :
    ∀ w, applyElements info vertexData vertexDataSize es w
      = { w with glTrace := w.glTrace ++ es.flatMap (fun e =>
            match touchedLocation info e.vertexType with
            | none => []
            | some loc =>
              [GLCall.glEnableVertexAttribArray loc,
               GLCall.glVertexAttribPointer loc e.size
                 (VertexElementSizeToGL e.vertexElementSize) GL_FALSE vertexDataSize
                 (vertexData + e.offset)]) } := by
  induction es with
  | nil => intro w; simp [applyElements]
  | cons e rest ih =>
    intro w
    simp only [applyElements, ih, applyElement_eq, List.flatMap_cons, List.append_assoc]

/-- The element loop of ClearProgram disables, element by element, the location
the switch selects. -/
theorem clearElements_eq (info : PLGLShaderInfo) (es : List VertexElement) :
    ∀ w, clearElements info es w
      = { w with glTrace := w.glTrace ++
            ((es.flatMap (fun e => (touchedLocation info e.vertexType).toList)).map
              GLCall.glDisableVertexAttribArray) } := by
  induction es with
  | nil => intro w; simp [clearElements]
  | cons e rest ih =>
    intro w
    simp only [clearElements, ih, clearElement_eq, List.flatMap_cons, List.append_assoc,
      List.map_append]
    cases touchedLocation info e.vertexType <;> simp

theorem enabledIndices_elements (info : PLGLShaderInfo) (vertexData vertexDataSize : Int)
    (es : List VertexElement) :
    enabledIndices (es.flatMap (fun e =>
        match touchedLocation info e.vertexType with
        | none => []
        | some loc =>
          [GLCall.glEnableVertexAttribArray loc,
           GLCall.glVertexAttribPointer loc e.size
             (VertexElementSizeToGL e.vertexElementSize) GL_FALSE vertexDataSize
             (vertexData + e.offset)]))
      = es.flatMap (fun e => (touchedLocation info e.vertexType).toList) := by
  induction es with
  | nil => rfl
  | cons e rest ih =>
    simp only [List.flatMap_cons, enabledIndices_append, ih]
    cases touchedLocation info e.vertexType <;> simp [enabledIndices]

theorem glRun_append (s : GLState) (a b : List GLCall) :
    glRun s (a ++ b) = glRun (glRun s a) b := by
  simp [glRun, List.foldl_append]

theorem glRun_disable (ds : List GLuint) :
    ∀ s, glRun s (ds.map GLCall.glDisableVertexAttribArray)
      = { s with enabled := s.enabled.filter (fun j => decide (j ∉ ds)) } := by
  induction ds with
  | nil => intro s; simp [glRun]
  | cons d rest ih =>
    intro s
    have h := ih (glStep s (GLCall.glDisableVertexAttribArray d))
    simp only [glRun, List.map_cons, List.foldl_cons] at h ⊢
    rw [h]
    simp only [glStep, List.filter_filter, List.mem_cons, not_or]
    congr 1
    apply List.filter_congr
    intro j _
    by_cases h1 : j = d <;> by_cases h2 : j ∈ rest <;> simp [h1, h2]

/-- The shape of a defined run of ApplyProgram on a live handle. -/
theorem apply_shape (shaderHandle : Int) (vertexData : Int)
    (definition : Option VertexDefinition) (textureCount : Int) (w w1 : World)
    (info : PLGLShaderInfo)
    (hvalid : lookupHandle shaderHandle w.handles.entries = some info)
    (hrun : PL_Shaders_ApplyProgram shaderHandle vertexData definition textureCount w
      = some w1) :
    ∃ us,
      (List.range (if textureCount > info.definition.textureCount then
          info.definition.textureCount else textureCount).toNat).map
        (fun i => (info.glTextureUniformID.get? i).map
          (fun loc => GLCall.glUniform1i (toGLint loc) (i : Int))) = us.map some ∧
      us.filter isUniform1i = us ∧ enabledIndices us = [] ∧
      w1 = { glTrace := w.glTrace ++ (GLCall.glUseProgram info.glProgramID :: us ++
               (definition.map (fun d => d.elements.flatMap (fun e =>
                    match touchedLocation info e.vertexType with
                    | none => []
                    | some loc =>
                      [GLCall.glEnableVertexAttribArray loc,
                       GLCall.glVertexAttribPointer loc e.size
                         (VertexElementSizeToGL e.vertexElementSize) GL_FALSE d.vertexByteSize
                         (vertexData + e.offset)]))).getD []),
             handles := { w.handles with
               log := w.handles.log ++ [HandleCall.getData shaderHandle] },
             s_stockShaderIDs := w.s_stockShaderIDs } := by
  simp only [PL_Shaders_ApplyProgram, PL_Handle_GetData, hvalid] at hrun
  cases hloop : applyTextureLoop info
      (List.range (if textureCount > info.definition.textureCount then
          info.definition.textureCount else textureCount).toNat)
      (glCall (GLCall.glUseProgram info.glProgramID)
        { w with handles := { w.handles with
            log := w.handles.log ++ [HandleCall.getData shaderHandle] } }) with
  | none => simp [hloop] at hrun
  | some w2 =>
    simp only [hloop] at hrun
    obtain ⟨us, h1, h2, h3, h4⟩ := applyTextureLoop_some info _ _ _ hloop
    refine ⟨us, h2, h3, h4, ?_⟩
    subst h1
    cases definition with
    | none =>
      simp only [Option.some.injEq] at hrun
      subst hrun
      simp [glCall]
    | some d =>
      simp only [Option.some.injEq] at hrun
      subst hrun
      simp [glCall, applyElements_eq]

/-- What ClearProgram does on a live handle. -/
theorem clear_shape (shaderHandle : Int) (definition : Option VertexDefinition) (w : World)
    (info : PLGLShaderInfo)
    (hvalid : lookupHandle shaderHandle w.handles.entries = some info) :
    PL_Shaders_ClearProgram shaderHandle definition w
      = { glTrace := w.glTrace ++
            (((definition.map (fun d =>
                d.elements.flatMap (fun e => (touchedLocation info e.vertexType).toList))).getD
                  []).map GLCall.glDisableVertexAttribArray ++ [GLCall.glUseProgram 0]),
          handles := { w.handles with
            log := w.handles.log ++ [HandleCall.getData shaderHandle] },
          s_stockShaderIDs := w.s_stockShaderIDs } := by
  simp only [PL_Shaders_ClearProgram, PL_Handle_GetData, hvalid]
  cases definition with
  | none => simp [glCall]
  | some d => simp [glCall, clearElements_eq]

theorem elementCalls_no_uniform (info : PLGLShaderInfo) (vertexData vertexDataSize : Int)
    (es : List VertexElement) :
    (es.flatMap (fun e =>
        match touchedLocation info e.vertexType with
        | none => []
        | some loc =>
          [GLCall.glEnableVertexAttribArray loc,
           GLCall.glVertexAttribPointer loc e.size
             (VertexElementSizeToGL e.vertexElementSize) GL_FALSE vertexDataSize
             (vertexData + e.offset)])).filter isUniform1i = [] := by
  induction es with
  | nil => rfl
  | cons e rest ih =>
    simp only [List.flatMap_cons, List.filter_append, ih]
    cases touchedLocation info e.vertexType <;> simp [isUniform1i]

theorem clamp_toNat (a b : Int) :
    (if a > b then b else a).toNat = (max 0 (min a b)).toNat := by
  split_ifs <;> omega

/-- ApplyProgram is defined on a live handle as soon as the clamped texture count
stays within the four uniform slots. -/
theorem apply_defined (shaderHandle : Int) (vertexData : Int)
    (definition : Option VertexDefinition) (textureCount : Int) (w : World)
    (info : PLGLShaderInfo)
    (hvalid : lookupHandle shaderHandle w.handles.entries = some info)
    (hfour : info.definition.textureCount ≤ 4 ∨ textureCount ≤ 4) :
    ∃ w1, PL_Shaders_ApplyProgram shaderHandle vertexData definition textureCount w
      = some w1 := by
  simp only [PL_Shaders_ApplyProgram, PL_Handle_GetData, hvalid]
  have hl : ∀ i ∈ List.range (if textureCount > info.definition.textureCount then
      info.definition.textureCount else textureCount).toNat, i < 4 := by
    intro i hi
    rw [List.mem_range] at hi
    split_ifs at hi <;> omega
  obtain ⟨w2, h2⟩ := applyTextureLoop_defined info _ hl
    (glCall (GLCall.glUseProgram info.glProgramID)
      { w with handles := { w.handles with
          log := w.handles.log ++ [HandleCall.getData shaderHandle] } })
  simp only [h2]
  cases definition with
  | none => exact ⟨_, rfl⟩
  | some d => exact ⟨_, rfl⟩

/-- C10: PL_Shaders_ApplyProgram clamps the caller's texture count to the
shader's.  On a live handle, whatever textureCount the caller passes, every
defined run sets exactly n = max(0, min(textureCount, record textureCount))
sampler uniforms, and the glUniform1i calls issued are, for i = 0, 1, .., n - 1 in
this order, the call that assigns texture unit i to the location held in slot i
of the record; and when the record's textureCount is at most 4, n is at most 4 and
the run is defined: no index leaves the four texture uniform slots. -/
theorem apply_clamps_texture_count (shaderHandle : Int) (vertexData : Int)
    (definition : Option VertexDefinition) (textureCount : Int) (w : World)
    (info : PLGLShaderInfo)
    (hvalid : lookupHandle shaderHandle w.handles.entries = some info) :
    (∀ w1, PL_Shaders_ApplyProgram shaderHandle vertexData definition textureCount w
        = some w1 →
      ((callsSince w w1).filter isUniform1i).length
        = (max 0 (min textureCount info.definition.textureCount)).toNat ∧
      (List.range (max 0 (min textureCount info.definition.textureCount)).toNat).map
          (fun i => (info.glTextureUniformID.get? i).map
            (fun loc => GLCall.glUniform1i (toGLint loc) (i : Int)))
        = ((callsSince w w1).filter isUniform1i).map some) ∧
    (info.definition.textureCount ≤ 4 →
      (max 0 (min textureCount info.definition.textureCount)).toNat ≤ 4 ∧
      ∃ w1, PL_Shaders_ApplyProgram shaderHandle vertexData definition textureCount w
        = some w1) := by
  constructor
  · intro w1 hrun
    obtain ⟨us, h1, h2, _, h4⟩ := apply_shape shaderHandle vertexData definition textureCount
      w w1 info hvalid hrun
    rw [clamp_toNat] at h1
    have hf : (callsSince w w1).filter isUniform1i = us := by
      rw [callsSince_append w w1 _ (by rw [h4])]
      cases definition with
      | none => simp [List.filter_cons, isUniform1i, h2]
      | some d =>
        simp [List.filter_cons, List.filter_append, isUniform1i, h2, elementCalls_no_uniform]
    rw [hf]
    refine ⟨?_, h1⟩
    have hlen := congrArg List.length h1
    simpa using hlen.symm
  · intro hfour
    exact ⟨by omega, apply_defined shaderHandle vertexData definition textureCount w info
      hvalid (Or.inl hfour)⟩

/-- A record with textureCount 2 and a caller asking for 7 textures: the call is
defined and two sampler uniforms are set. -/
theorem apply_clamps_texture_count_witness :
    lookupHandle 5 sampleWorld.handles.entries = some sampleInfo ∧
    sampleInfo.definition.textureCount ≤ 4 ∧
    ∃ w1, PL_Shaders_ApplyProgram 5 1000 (some sampleLayout) 7 sampleWorld = some w1 ∧
      ((callsSince sampleWorld w1).filter isUniform1i).length = 2 :=
  ⟨by decide, by decide,
   let t := apply_clamps_texture_count 5 1000 (some sampleLayout) 7 sampleWorld sampleInfo
     (by decide)
   let ⟨w1, h1⟩ := (t.2 (by decide)).2
   ⟨w1, h1, (t.1 w1 h1).1⟩⟩

/-- C4: PL_Shaders_ApplyProgram and PL_Shaders_ClearProgram are paired.  On a
live handle and for every vertex definition (or none): ApplyProgram is defined
whenever the clamped texture count stays within the four uniform slots; and after
every defined ApplyProgram, the locations ClearProgram passes to
glDisableVertexAttribArray are exactly, in order, the locations ApplyProgram passed
to glEnableVertexAttribArray, the last call of ClearProgram is glUseProgram(0),
and in the GL context after both runs, from any context before them, no program
is active and no attribute array enabled by ApplyProgram is enabled. -/
theorem apply_clear_paired (shaderHandle : Int) (vertexData : Int)
    (definition : Option VertexDefinition) (textureCount : Int) (w : World)
    (info : PLGLShaderInfo)
    (hvalid : lookupHandle shaderHandle w.handles.entries = some info) :
    ((info.definition.textureCount ≤ 4 ∨ textureCount ≤ 4) →
      ∃ w1, PL_Shaders_ApplyProgram shaderHandle vertexData definition textureCount w
        = some w1) ∧
    ∀ w1, PL_Shaders_ApplyProgram shaderHandle vertexData definition textureCount w
        = some w1 →
      disabledIndices (callsSince w1 (PL_Shaders_ClearProgram shaderHandle definition w1))
        = enabledIndices (callsSince w w1) ∧
      (callsSince w1 (PL_Shaders_ClearProgram shaderHandle definition w1)).getLast?
        = some (GLCall.glUseProgram 0) ∧
      ∀ s0 : GLState,
        (glRun s0 (callsSince w
          (PL_Shaders_ClearProgram shaderHandle definition w1))).program = 0 ∧
        ∀ i ∈ enabledIndices (callsSince w w1),
          i ∉ (glRun s0 (callsSince w
            (PL_Shaders_ClearProgram shaderHandle definition w1))).enabled := by
  refine ⟨apply_defined shaderHandle vertexData definition textureCount w info hvalid, ?_⟩
  intro w1 hrun
  obtain ⟨us, _, _, hen, hw1⟩ := apply_shape shaderHandle vertexData definition textureCount
    w w1 info hvalid hrun
  have hvalid1 : lookupHandle shaderHandle w1.handles.entries = some info := by
    rw [hw1]; exact hvalid
  have hclear := clear_shape shaderHandle definition w1 info hvalid1
  have ht1 := congrArg World.glTrace hw1
  have ht2 := congrArg World.glTrace hclear
  simp only at ht1 ht2
  have ha := callsSince_append w w1 _ ht1
  have hc1 := callsSince_append w1 _ _ ht2
  have hboth : callsSince w (PL_Shaders_ClearProgram shaderHandle definition w1)
      = callsSince w w1 ++ callsSince w1 (PL_Shaders_ClearProgram shaderHandle definition w1) := by
    apply callsSince_append
    rw [hc1, ha, ht2, ht1, List.append_assoc]
  have hen2 : enabledIndices (callsSince w w1)
      = (definition.map (fun d =>
          d.elements.flatMap (fun e => (touchedLocation info e.vertexType).toList))).getD [] := by
    rw [ha]
    cases definition with
    | none =>
      simp only [Option.map_none', Option.getD_none, List.append_nil]
      exact hen
    | some d =>
      simp only [Option.map_some', Option.getD_some]
      show enabledIndices (us ++ _) = _
      rw [enabledIndices_append, hen, enabledIndices_elements]
      rfl
  have hdis : callsSince w1 (PL_Shaders_ClearProgram shaderHandle definition w1)
      = (enabledIndices (callsSince w w1)).map GLCall.glDisableVertexAttribArray
          ++ [GLCall.glUseProgram 0] := by
    rw [hc1, hen2]
  refine ⟨?_, ?_, ?_⟩
  · rw [hdis, disabledIndices_append, disabledIndices_map]
    simp [disabledIndices]
  · rw [hdis]; simp
  · intro s0
    rw [hboth, hdis, glRun_append, glRun_append, glRun_disable]
    refine ⟨by simp [glRun, glStep], ?_⟩
    intro i hi
    simp [glRun, glStep, hi]

/-- The pairing on the hand-made state: handle 5, a layout of four elements and a
caller asking for 7 textures. -/
theorem apply_clear_paired_witness :
    lookupHandle 5 sampleWorld.handles.entries = some sampleInfo ∧
    ∃ w1, PL_Shaders_ApplyProgram 5 1000 (some sampleLayout) 7 sampleWorld = some w1 ∧
      disabledIndices (callsSince w1 (PL_Shaders_ClearProgram 5 (some sampleLayout) w1))
        = enabledIndices (callsSince sampleWorld w1) ∧
      (callsSince w1 (PL_Shaders_ClearProgram 5 (some sampleLayout) w1)).getLast?
        = some (GLCall.glUseProgram 0) :=
  ⟨by decide,
   let t := apply_clear_paired 5 1000 (some sampleLayout) 7 sampleWorld sampleInfo (by decide)
   let ⟨w1, h1⟩ := t.1 (Or.inl (by decide))
   ⟨w1, h1, (t.2 w1 h1).1, (t.2 w1 h1).2.1⟩⟩

theorem texcoordSlot_facts (drv : GLDriver) (history : List GLCall) (program : GLuint)
    (n : Int) (k : SlotIndex) :
    texcoordSlot drv history program n k < 2 ^ 32 ∧
    (¬ (k.toNat : Int) < n → texcoordSlot drv history program n k = 0) := by
  unfold texcoordSlot
  split_ifs with h
  · exact ⟨toGLuint_lt _, fun hn => absurd h hn⟩
  · exact ⟨by norm_num, fun _ => rfl⟩

/-- On a record written by lines 149-186 the switch of ApplyProgram selects the
location that `boundLocation` names. -/
theorem recordOf_touched (drv : GLDriver) (history : List GLCall) (program : GLuint)
    (definition : PLGLShaderDefinition) (t : VertexElementType) :
    touchedLocation (recordOf drv history program definition) t
      = boundLocation definition (recordOf drv history program definition) t := by
  have key : ∀ k : SlotIndex,
      (if toGLint ((recordOf drv history program definition).glTexcoordAttribID.get k) ≠ 0 then
        some (toGLuint (toGLint
          ((recordOf drv history program definition).glTexcoordAttribID.get k)))
       else none)
      = (if (k.toNat : Int) < definition.texcoordCount ∧
            (recordOf drv history program definition).glTexcoordAttribID.get k ≠ 0 then
          some ((recordOf drv history program definition).glTexcoordAttribID.get k)
         else none) := by
    intro k
    have hs : ∃ hist, (recordOf drv history program definition).glTexcoordAttribID.get k
        = texcoordSlot drv hist program definition.texcoordCount k := by
      cases k <;> exact ⟨_, rfl⟩
    obtain ⟨hist, hs⟩ := hs
    obtain ⟨hlt, hz⟩ := texcoordSlot_facts drv hist program definition.texcoordCount k
    rw [hs]
    by_cases h0 : texcoordSlot drv hist program definition.texcoordCount k = 0
    · simp [h0, toGLint]
    · have hk : (k.toNat : Int) < definition.texcoordCount := by
        by_contra hn
        exact h0 (hz hn)
      have h1 : toGLint (texcoordSlot drv hist program definition.texcoordCount k) ≠ 0 :=
        fun h => h0 ((toGLint_eq_zero _ hlt).mp h)
      simp only [h1, ne_eq, not_false_eq_true, if_true, hk, h0, and_self,
        toGLuint_toGLint _ hlt]
  cases t
  case VERTEX_POSITION => rfl
  case VERTEX_OTHER => rfl
  case VERTEX_COLOR =>
    by_cases hc : definition.hasColor = 0 <;> simp [touchedLocation, boundLocation, recordOf, hc]
  all_goals
    simp only [touchedLocation, boundLocation, texcoordIndex]
    exact key _

/-- What PL_Shaders_ApplyProgram binds, location 0 being read as absent: the vertex attributes of the
layout that the shader declares and that were resolved to a location other than
0.  For the record of a successful PL_Shaders_CompileDefinition and every vertex
definition: the call is defined whenever the clamped texture count stays within
the four uniform slots, and every defined call issues glUseProgram of the
record's program, then glUniform1i calls only, then, element by element in layout
order, for a position element, for a texcoord k element with k < texcoordCount
and a resolved location other than 0, and for a color element with hasColor set
and a resolved location other than 0, glEnableVertexAttribArray on that location
followed by glVertexAttribPointer on it with the element's component count, GL
type GL_UNSIGNED_BYTE for VERTEXSIZE_UNSIGNED_BYTE and GL_FLOAT otherwise,
GL_FALSE, the definition's vertexByteSize as stride and vertexData plus the
element's offset as pointer; for any other element nothing. -/
theorem apply_binds_resolved (drv : GLDriver) (definition : PLGLShaderDefinition)
    (w : World) (h : (PL_Shaders_CompileDefinition drv definition w).1 ≠ -1)
    (vertexData : Int) (layout : VertexDefinition) (textureCount : Int) :
    ∃ info,
      lookupHandle (PL_Shaders_CompileDefinition drv definition w).1
        (PL_Shaders_CompileDefinition drv definition w).2.handles.entries = some info ∧
      ((definition.textureCount ≤ 4 ∨ textureCount ≤ 4) →
        ∃ w1, PL_Shaders_ApplyProgram (PL_Shaders_CompileDefinition drv definition w).1
          vertexData (some layout) textureCount
          (PL_Shaders_CompileDefinition drv definition w).2 = some w1) ∧
      ∀ w1, PL_Shaders_ApplyProgram (PL_Shaders_CompileDefinition drv definition w).1
          vertexData (some layout) textureCount
          (PL_Shaders_CompileDefinition drv definition w).2 = some w1 →
        ∃ us, us.filter isUniform1i = us ∧
          callsSince (PL_Shaders_CompileDefinition drv definition w).2 w1
            = GLCall.glUseProgram info.glProgramID :: us ++
                layout.elements.flatMap
                  (bindCalls definition info vertexData layout.vertexByteSize) := by
  obtain ⟨calls, _, _, _, heq⟩ := compile_success drv definition w h
  have hvalid : lookupHandle (PL_Shaders_CompileDefinition drv definition w).1
      (PL_Shaders_CompileDefinition drv definition w).2.handles.entries
      = some (recordOf drv (w.glTrace ++ GLCall.glGetError :: calls)
          (drv.createProgram (w.glTrace ++ [GLCall.glGetError])) definition) := by
    rw [heq]; simp [lookupHandle]
  refine ⟨_, hvalid, ?_, ?_⟩
  · intro hfour
    exact apply_defined _ vertexData (some layout) textureCount _ _ hvalid
      (by simpa [recordOf] using hfour)
  · intro w1 hrun
    obtain ⟨us, _, hu, _, hw1⟩ := apply_shape _ vertexData (some layout) textureCount
      _ w1 _ hvalid hrun
    refine ⟨us, hu, ?_⟩
    rw [callsSince_append _ w1 _ (congrArg World.glTrace hw1)]
    simp only [Option.map_some', Option.getD_some, List.cons_append, List.cons.injEq, true_and,
      List.append_cancel_left_eq]
    apply List.flatMap_congr
    intro e _
    simp only [bindCalls, ← recordOf_touched]
    cases touchedLocation _ e.vertexType with
    | none => rfl
    | some loc => cases hsz : e.vertexElementSize <;> simp [VertexElementSizeToGL]

/-- The binding with location 0 read as absent, on the stock single-textured program under the well-behaved
driver, bound to a layout of four elements. -/
theorem apply_binds_resolved_witness :
    (PL_Shaders_CompileDefinition goodDriver
      (s_stockShaderDefinitions .PLGL_SHADER_BASIC_TEX1) initialWorld).1 ≠ -1 ∧
    ∃ info,
      lookupHandle (PL_Shaders_CompileDefinition goodDriver
          (s_stockShaderDefinitions .PLGL_SHADER_BASIC_TEX1) initialWorld).1
        (PL_Shaders_CompileDefinition goodDriver
          (s_stockShaderDefinitions .PLGL_SHADER_BASIC_TEX1) initialWorld).2.handles.entries
        = some info ∧
      ∃ w1, PL_Shaders_ApplyProgram (PL_Shaders_CompileDefinition goodDriver
          (s_stockShaderDefinitions .PLGL_SHADER_BASIC_TEX1) initialWorld).1
          1000 (some sampleLayout) 7
          (PL_Shaders_CompileDefinition goodDriver
            (s_stockShaderDefinitions .PLGL_SHADER_BASIC_TEX1) initialWorld).2 = some w1 :=
  ⟨by decide,
   let ⟨info, h1, h2, _⟩ :=
     apply_binds_resolved goodDriver (s_stockShaderDefinitions .PLGL_SHADER_BASIC_TEX1)
       initialWorld (by decide) 1000 sampleLayout 7
   ⟨info, h1, h2 (Or.inl (by decide))⟩⟩

theorem lookedUpHandles_append (a b : List HandleCall) :
    lookedUpHandles (a ++ b) = lookedUpHandles a ++ lookedUpHandles b := by
  induction a with
  | nil => rfl
  | cons c rest ih => cases c <;> simp [lookedUpHandles, ih]

/-- PL_Shaders_CompileDefinition does not touch the stock handle table. -/
theorem compile_keeps_stock (drv : GLDriver) (definition : PLGLShaderDefinition)
    (w : World) :
    (PL_Shaders_CompileDefinition drv definition w).2.s_stockShaderIDs
      = w.s_stockShaderIDs := by
  obtain ⟨calls, _, _, _, _, _, hcase⟩ := compile_paths drv definition w
  rcases hcase with ⟨_, heq⟩ | ⟨_, heq⟩
  · rw [heq]
  · rw [heq, compileFinish_spec]

/-- PL_Shaders_DeleteShader does not touch the stock handle table and looks up
exactly the handle it is given, once. -/
theorem delete_frame (shaderHandle : Int) (w : World) :
    (PL_Shaders_DeleteShader shaderHandle w).s_stockShaderIDs = w.s_stockShaderIDs ∧
    lookedUpHandles (PL_Shaders_DeleteShader shaderHandle w).handles.log
      = lookedUpHandles w.handles.log ++ [shaderHandle] := by
  unfold PL_Shaders_DeleteShader
  simp only [PL_Handle_GetData]
  cases lookupHandle shaderHandle w.handles.entries with
  | none => simp [lookedUpHandles_append, lookedUpHandles]
  | some info =>
    simp only [PL_Handle_ReleaseID, glCall]
    split_ifs <;> simp [lookedUpHandles_append, lookedUpHandles]

/-- C6: PL_Shaders_Init compiles exactly the two stock definitions, in order.
The untextured definition has (textureCount, texcoordCount, hasColor) = (0, 0, 1)
and the single-textured one (1, 1, 1); the state after Init is the state after
compiling the first and then, from there, the second, with the two return values
written to the stock table; and PL_Shaders_GetStockProgramForID then returns, for
each stock type, the value PL_Shaders_CompileDefinition returned for it. -/
theorem init_compiles_stock (drv : GLDriver) (w : World) :
    ((s_stockShaderDefinitions .PLGL_SHADER_BASIC_NOTEX).textureCount,
     (s_stockShaderDefinitions .PLGL_SHADER_BASIC_NOTEX).texcoordCount,
     (s_stockShaderDefinitions .PLGL_SHADER_BASIC_NOTEX).hasColor) = (0, 0, 1) ∧
    ((s_stockShaderDefinitions .PLGL_SHADER_BASIC_TEX1).textureCount,
     (s_stockShaderDefinitions .PLGL_SHADER_BASIC_TEX1).texcoordCount,
     (s_stockShaderDefinitions .PLGL_SHADER_BASIC_TEX1).hasColor) = (1, 1, 1) ∧
    PL_Shaders_Init drv w
      = { (PL_Shaders_CompileDefinition drv (s_stockShaderDefinitions .PLGL_SHADER_BASIC_TEX1)
            { (PL_Shaders_CompileDefinition drv
                (s_stockShaderDefinitions .PLGL_SHADER_BASIC_NOTEX) w).2 with
              s_stockShaderIDs :=
                ((PL_Shaders_CompileDefinition drv
                    (s_stockShaderDefinitions .PLGL_SHADER_BASIC_NOTEX) w).1,
                 w.s_stockShaderIDs.2) }).2 with
          s_stockShaderIDs :=
            ((PL_Shaders_CompileDefinition drv
                (s_stockShaderDefinitions .PLGL_SHADER_BASIC_NOTEX) w).1,
             (PL_Shaders_CompileDefinition drv
                (s_stockShaderDefinitions .PLGL_SHADER_BASIC_TEX1)
                { (PL_Shaders_CompileDefinition drv
                    (s_stockShaderDefinitions .PLGL_SHADER_BASIC_NOTEX) w).2 with
                  s_stockShaderIDs :=
                    ((PL_Shaders_CompileDefinition drv
                        (s_stockShaderDefinitions .PLGL_SHADER_BASIC_NOTEX) w).1,
                     w.s_stockShaderIDs.2) }).1) } ∧
    PL_Shaders_GetStockProgramForID .PLGL_SHADER_BASIC_NOTEX (PL_Shaders_Init drv w)
      = (PL_Shaders_CompileDefinition drv
          (s_stockShaderDefinitions .PLGL_SHADER_BASIC_NOTEX) w).1 ∧
    PL_Shaders_GetStockProgramForID .PLGL_SHADER_BASIC_TEX1 (PL_Shaders_Init drv w)
      = (PL_Shaders_CompileDefinition drv
          (s_stockShaderDefinitions .PLGL_SHADER_BASIC_TEX1)
          { (PL_Shaders_CompileDefinition drv
              (s_stockShaderDefinitions .PLGL_SHADER_BASIC_NOTEX) w).2 with
            s_stockShaderIDs :=
              ((PL_Shaders_CompileDefinition drv
                  (s_stockShaderDefinitions .PLGL_SHADER_BASIC_NOTEX) w).1,
               w.s_stockShaderIDs.2) }).1 := by
  have hinit : PL_Shaders_Init drv w
      = { (PL_Shaders_CompileDefinition drv (s_stockShaderDefinitions .PLGL_SHADER_BASIC_TEX1)
            { (PL_Shaders_CompileDefinition drv
                (s_stockShaderDefinitions .PLGL_SHADER_BASIC_NOTEX) w).2 with
              s_stockShaderIDs :=
                ((PL_Shaders_CompileDefinition drv
                    (s_stockShaderDefinitions .PLGL_SHADER_BASIC_NOTEX) w).1,
                 w.s_stockShaderIDs.2) }).2 with
          s_stockShaderIDs :=
            ((PL_Shaders_CompileDefinition drv
                (s_stockShaderDefinitions .PLGL_SHADER_BASIC_NOTEX) w).1,
             (PL_Shaders_CompileDefinition drv
                (s_stockShaderDefinitions .PLGL_SHADER_BASIC_TEX1)
                { (PL_Shaders_CompileDefinition drv
                    (s_stockShaderDefinitions .PLGL_SHADER_BASIC_NOTEX) w).2 with
                  s_stockShaderIDs :=
                    ((PL_Shaders_CompileDefinition drv
                        (s_stockShaderDefinitions .PLGL_SHADER_BASIC_NOTEX) w).1,
                     w.s_stockShaderIDs.2) }).1) } := by
    simp only [PL_Shaders_Init, stockShaderTypes, initLoop, stockSet, compile_keeps_stock]
  refine ⟨rfl, rfl, hinit, ?_, ?_⟩
  · rw [hinit]; rfl
  · rw [hinit]; rfl

/-- C7: PL_Shaders_Cleanup undoes the table writes of PL_Shaders_Init.  From any
state, Cleanup is DeleteShader on the first stored stock handle followed by
DeleteShader on the second, each called once and in table order (the handle
lookups of the run are exactly these two handles), with the table set to zero;
afterwards PL_Shaders_GetStockProgramForID returns 0 for both stock types, the
values of the static initialiser, and a second Cleanup leaves the table as it
is. -/
theorem cleanup_resets_stock (w : World) :
    PL_Shaders_Cleanup w
      = { PL_Shaders_DeleteShader w.s_stockShaderIDs.2
            { PL_Shaders_DeleteShader w.s_stockShaderIDs.1 w with
              s_stockShaderIDs := (0, w.s_stockShaderIDs.2) } with
          s_stockShaderIDs := (0, 0) } ∧
    lookedUpHandles (PL_Shaders_Cleanup w).handles.log
      = lookedUpHandles w.handles.log ++ [w.s_stockShaderIDs.1, w.s_stockShaderIDs.2] ∧
    (∀ t, PL_Shaders_GetStockProgramForID t (PL_Shaders_Cleanup w) = 0) ∧
    (∀ t, PL_Shaders_GetStockProgramForID t (PL_Shaders_Cleanup w)
      = PL_Shaders_GetStockProgramForID t initialWorld) ∧
    (PL_Shaders_Cleanup (PL_Shaders_Cleanup w)).s_stockShaderIDs
      = (PL_Shaders_Cleanup w).s_stockShaderIDs := by
  have hclean : ∀ v : World, PL_Shaders_Cleanup v
      = { PL_Shaders_DeleteShader v.s_stockShaderIDs.2
            { PL_Shaders_DeleteShader v.s_stockShaderIDs.1 v with
              s_stockShaderIDs := (0, v.s_stockShaderIDs.2) } with
          s_stockShaderIDs := (0, 0) } := by
    intro v
    simp only [PL_Shaders_Cleanup, stockShaderTypes, cleanupLoop, stockSet, stockGet,
      (delete_frame _ _).1]
  refine ⟨hclean w, ?_, ?_, ?_, ?_⟩
  · rw [hclean]
    simp only [(delete_frame _ _).2, List.append_assoc, List.singleton_append]
  · intro t
    rw [hclean]
    cases t <;> rfl
  · intro t
    rw [hclean]
    cases t <;> rfl
  · rw [hclean (PL_Shaders_Cleanup w), hclean w]

end PLGLShaders
